import Mathlib

/-!
WiFi bring-up (`components/wifi/src/wifi.cpp`): the connection state machine.

A shallow embedding of the event handlers `wifi_event_handler` and
`ip_event_handler`, of `connect_wifi` and of `init_wifi`.

* The file-level statics `retry_num` and `wifi_event_group` are the fields of
  `Globals`; every call into ESP-IDF / FreeRTOS that the functions make is
  appended to `Globals.trace`, in program order.
* `retry_num` is a C `int`.  It is only ever incremented under the guard
  `retry_num < MAX_FAILURES`, so the increment cannot overflow and the counter
  is modelled by an unbounded `Int` (see `retry_num_in_int_range`).
* `MAX_FAILURES` (`CONFIG_WIFI_CONNECT_ATTEMPTS`, from the build
  configuration) is a parameter.
* The logging statements `D_LOGI` / `D_LOGE` write diagnostics only and are
  left out of the trace.
* The event task runs concurrently with the caller of `connect_wifi`. A run
  is described by the list of events the network stack posts and by the
  number of them that are handled before the caller reaches
  `xEventGroupWaitBits`; the wait returns the gate value at the moment a
  waited-for bit is set (or the current value, if one is set already). Events
  arriving after the caller has been woken are not part of a run: they change
  neither the status returned nor the releases.
-/

namespace wifi

/-! ## Constants -/

/-- Expansion of `#define WIFI_SUCCESS 1 << 0`. -/
def WIFI_SUCCESS : Nat := 1 <<< 0

/-- Expansion of `#define WIFI_FAILURE 1 << 1`. -/
def WIFI_FAILURE : Nat := 1 <<< 1

/-- ESP-IDF error code type (`typedef int esp_err_t`). -/
abbrev esp_err_t := Int

/-- ESP-IDF `ESP_OK`. -/
def ESP_OK : esp_err_t := 0

/-- ESP-IDF `ESP_ERR_NVS_NO_FREE_PAGES` (`ESP_ERR_NVS_BASE + 0x0d`). -/
def ESP_ERR_NVS_NO_FREE_PAGES : esp_err_t := 0x110d

/-- ESP-IDF `ESP_ERR_NVS_NEW_VERSION_FOUND` (`ESP_ERR_NVS_BASE + 0x10`). -/
def ESP_ERR_NVS_NEW_VERSION_FOUND : esp_err_t := 0x1110

/-- Modelled from the spec: `constants/general.h` with the values of `SUCCESS`
and `FAILURE` is not among the sources; the spec describes the return surface
as a binary status `SUCCESS` / `FAILURE`. -/
inductive Status where
  | SUCCESS
  | FAILURE
  deriving DecidableEq, Repr

/-! ## Events -/

/-- Event ids of the `WIFI_EVENT` base that `wifi_event_handler` tells apart;
the handler is registered with `ESP_EVENT_ANY_ID`, so it also receives every
other WiFi event id. -/
inductive wifi_event_t where
  | WIFI_EVENT_STA_START
  | WIFI_EVENT_STA_DISCONNECTED
  | WIFI_EVENT_OTHER
  deriving DecidableEq, Repr

/-- Event ids of the `IP_EVENT` base. -/
inductive ip_event_t where
  | IP_EVENT_STA_GOT_IP
  | IP_EVENT_OTHER
  deriving DecidableEq, Repr

/-- An event posted to the default event loop: its base and its id. -/
inductive Event where
  | WIFI_EVENT (event_id : wifi_event_t)
  | IP_EVENT (event_id : ip_event_t)
  deriving DecidableEq, Repr

/-- The spec's `InterfaceStarted`. -/
abbrev InterfaceStarted : Event := .WIFI_EVENT .WIFI_EVENT_STA_START

/-- The spec's `Disconnected`. -/
abbrev Disconnected : Event := .WIFI_EVENT .WIFI_EVENT_STA_DISCONNECTED

/-- The spec's `AddressAssigned`. -/
abbrev AddressAssigned : Event := .IP_EVENT .IP_EVENT_STA_GOT_IP

/-! ## Effects and state -/

/-- Messages passed to `display::display_text` by `init_wifi`. -/
inductive DisplayMsg where
  | running_nvs_flash_init
  | connecting_to_wifi
  | wifi_connected
  deriving DecidableEq, Repr

/-- The calls into ESP-IDF, FreeRTOS and the display that the module makes.
`xEventGroupWaitBits bits` is put on the trace when the wait returns, with the
bits it returns. -/
inductive Call where
  | esp_wifi_connect
  | xEventGroupSetBits (uxBitsToSet : Nat)
  | esp_netif_init
  | esp_event_loop_create_default
  | esp_netif_create_default_wifi_sta
  | esp_wifi_init
  | xEventGroupCreate
  | register_wifi_event_handler
  | register_ip_event_handler
  | esp_wifi_set_mode
  | esp_wifi_set_config
  | esp_wifi_start
  | xEventGroupWaitBits (returned : Nat)
  | unregister_ip_event_handler
  | unregister_wifi_event_handler
  | vEventGroupDelete
  | nvs_flash_init
  | nvs_flash_erase
  | display_text (msg : DisplayMsg)
  deriving DecidableEq, Repr

/-- The statics of namespace `wifi` together with the trace of calls made. -/
structure Globals where
  retry_num : Int
  wifi_event_group : Nat
  trace : List Call
  deriving DecidableEq, Repr

/-- Record a call at the end of the trace. -/
def Globals.call (g : Globals) (c : Call) : Globals :=
  { g with trace := g.trace ++ [c] }

/-- State at program start: `static int retry_num = 0`, no bit set, nothing
called yet. -/
def Globals.initial : Globals :=
  { retry_num := 0, wifi_event_group := 0, trace := [] }

/-- FreeRTOS `xEventGroupSetBits`: or the mask into the event group. -/
def xEventGroupSetBits (g : Globals) (uxBitsToSet : Nat) : Globals :=
  { g with wifi_event_group := g.wifi_event_group ||| uxBitsToSet,
           trace := g.trace ++ [Call.xEventGroupSetBits uxBitsToSet] }

/-! ## The event handlers -/

/-- Embedding of `wifi_event_handler` (wifi.cpp lines 26-40). -/
def wifi_event_handler (MAX_FAILURES : Int) (event_id : wifi_event_t) (g : Globals) : Globals :=
  if event_id = .WIFI_EVENT_STA_START then
    g.call .esp_wifi_connect
  else if event_id = .WIFI_EVENT_STA_DISCONNECTED then
    if g.retry_num < MAX_FAILURES then
      ({ g with retry_num := g.retry_num + 1 }).call .esp_wifi_connect
    else
      xEventGroupSetBits g WIFI_FAILURE
  else g

/-- Embedding of `ip_event_handler` (wifi.cpp lines 42-50). -/
def ip_event_handler (event_id : ip_event_t) (g : Globals) : Globals :=
  if event_id = .IP_EVENT_STA_GOT_IP then
    xEventGroupSetBits { g with retry_num := 0 } WIFI_SUCCESS
  else g

/-- The event loop delivering one event to the handlers as registered by
`connect_wifi`: `wifi_event_handler` for `WIFI_EVENT` with `ESP_EVENT_ANY_ID`,
`ip_event_handler` for `IP_EVENT` with `IP_EVENT_STA_GOT_IP` only. -/
def deliver (MAX_FAILURES : Int) (e : Event) (g : Globals) : Globals :=
  match e with
  | .WIFI_EVENT id => wifi_event_handler MAX_FAILURES id g
  | .IP_EVENT id =>
    if id = .IP_EVENT_STA_GOT_IP then ip_event_handler id g else g

/-- Deliver a finite sequence of events in order. -/
def run (MAX_FAILURES : Int) : List Event → Globals → Globals
  | [], g => g
  | e :: es, g => run MAX_FAILURES es (deliver MAX_FAILURES e g)

/-- The success bit of the gate is set. -/
def success_signaled (g : Globals) : Bool :=
  g.wifi_event_group &&& WIFI_SUCCESS != 0

/-- The failure bit of the gate is set. -/
def failure_signaled (g : Globals) : Bool :=
  g.wifi_event_group &&& WIFI_FAILURE != 0

/-- Number of connect requests in a trace. -/
def connect_requests (t : List Call) : Nat :=
  t.count Call.esp_wifi_connect

/-- Number of gate signals (`xEventGroupSetBits` calls) of one kind in a trace. -/
def signals_of (mask : Nat) (t : List Call) : Nat :=
  t.count (Call.xEventGroupSetBits mask)

/-- A call is a gate signal. -/
def Call.is_signal : Call → Bool
  | .xEventGroupSetBits _ => true
  | _ => false

/-- Number of gate signals of any kind in a trace. -/
def signals (t : List Call) : Nat :=
  t.countP Call.is_signal

/-! ## The blocking caller: `connect_wifi` and `init_wifi` -/

/-- How a call of one of the module functions ends: it returns a value, the
process is aborted by a failed `ESP_ERROR_CHECK`, or the caller stays blocked
in `xEventGroupWaitBits` (which is called with `portMAX_DELAY`). Each case
carries the statics and the trace at that point. -/
inductive Outcome (α : Type) where
  | returned (value : α) (g : Globals)
  | aborted (g : Globals)
  | blocked (g : Globals)
  deriving DecidableEq, Repr

/-- What the environment does during one run: the configured retry budget, the
result code of every checked ESP-IDF call, the events the network stack posts
once the interface is started, and how many of them the event task has already
handled when the caller reaches `xEventGroupWaitBits`. -/
structure Env where
  MAX_FAILURES : Int
  nvs_flash_init_first : esp_err_t
  nvs_flash_erase : esp_err_t
  nvs_flash_init_second : esp_err_t
  esp_netif_init : esp_err_t
  esp_event_loop_create_default : esp_err_t
  esp_wifi_init : esp_err_t
  register_wifi_event_handler : esp_err_t
  register_ip_event_handler : esp_err_t
  esp_wifi_set_mode : esp_err_t
  esp_wifi_set_config : esp_err_t
  esp_wifi_start : esp_err_t
  unregister_ip_event_handler : esp_err_t
  unregister_wifi_event_handler : esp_err_t
  events : List Event
  handled_before_wait : Nat
  deriving DecidableEq, Repr

/-- ESP-IDF `ESP_ERROR_CHECK(c())` with assertions enabled (the default build):
make the call, abort unless it returned `ESP_OK`, otherwise go on with the
rest of the function. -/
def ESP_ERROR_CHECK {α : Type} (c : Call) (rc : esp_err_t) (g : Globals)
    (rest : Globals → Outcome α) : Outcome α :=
  if rc = ESP_OK then rest (g.call c) else .aborted (g.call c)

/-- FreeRTOS `xEventGroupWaitBits(group, mask, pdFALSE, pdFALSE, portMAX_DELAY)`
against the events still to be delivered: the caller is woken as soon as a bit
of the mask is set and gets the value of the event group at that moment; bits
are not cleared on exit; without such a bit it stays blocked. -/
def xEventGroupWaitBits (MAX_FAILURES : Int) (uxBitsToWaitFor : Nat) :
    List Event → Globals → Outcome Nat
  | [], g =>
    if g.wifi_event_group &&& uxBitsToWaitFor ≠ 0 then
      .returned g.wifi_event_group (g.call (.xEventGroupWaitBits g.wifi_event_group))
    else .blocked g
  | e :: pending, g =>
    if g.wifi_event_group &&& uxBitsToWaitFor ≠ 0 then
      .returned g.wifi_event_group (g.call (.xEventGroupWaitBits g.wifi_event_group))
    else xEventGroupWaitBits MAX_FAILURES uxBitsToWaitFor pending (deliver MAX_FAILURES e g)

/-- Embedding of `connect_wifi` (wifi.cpp lines 52-102). -/
def connect_wifi (env : Env) (g : Globals) : Outcome Status :=
  ESP_ERROR_CHECK .esp_netif_init env.esp_netif_init g fun g =>
  ESP_ERROR_CHECK .esp_event_loop_create_default env.esp_event_loop_create_default g fun g =>
  let g := g.call .esp_netif_create_default_wifi_sta
  ESP_ERROR_CHECK .esp_wifi_init env.esp_wifi_init g fun g =>
  let g := { g with wifi_event_group := 0 }.call .xEventGroupCreate
  ESP_ERROR_CHECK .register_wifi_event_handler env.register_wifi_event_handler g fun g =>
  ESP_ERROR_CHECK .register_ip_event_handler env.register_ip_event_handler g fun g =>
  ESP_ERROR_CHECK .esp_wifi_set_mode env.esp_wifi_set_mode g fun g =>
  ESP_ERROR_CHECK .esp_wifi_set_config env.esp_wifi_set_config g fun g =>
  ESP_ERROR_CHECK .esp_wifi_start env.esp_wifi_start g fun g =>
  let g := run env.MAX_FAILURES (env.events.take env.handled_before_wait) g
  match xEventGroupWaitBits env.MAX_FAILURES (WIFI_SUCCESS ||| WIFI_FAILURE)
      (env.events.drop env.handled_before_wait) g with
  | .aborted g => .aborted g
  | .blocked g => .blocked g
  | .returned bits g =>
    let status := if bits = WIFI_SUCCESS then Status.SUCCESS else Status.FAILURE
    ESP_ERROR_CHECK .unregister_ip_event_handler env.unregister_ip_event_handler g fun g =>
    ESP_ERROR_CHECK .unregister_wifi_event_handler env.unregister_wifi_event_handler g fun g =>
    let g := g.call .vEventGroupDelete
    .returned status g

/-- Embedding of `init_wifi` (wifi.cpp lines 104-123). The first `match`
scrutinee is the storage phase (lines 106-111), which yields the value of
`ret` that the final `ESP_ERROR_CHECK(ret)` of line 112 then tests. -/
def init_wifi (env : Env) (g : Globals) : Outcome Status :=
  let ret := env.nvs_flash_init_first
  let g := g.call .nvs_flash_init
  let g := g.call (.display_text .running_nvs_flash_init)
  match (if ret = ESP_ERR_NVS_NO_FREE_PAGES ∨ ret = ESP_ERR_NVS_NEW_VERSION_FOUND then
      ESP_ERROR_CHECK .nvs_flash_erase env.nvs_flash_erase g fun g =>
      .returned env.nvs_flash_init_second (g.call .nvs_flash_init)
    else .returned ret g : Outcome esp_err_t) with
  | .aborted g => .aborted g
  | .blocked g => .blocked g
  | .returned ret g =>
    if ret = ESP_OK then
      let g := g.call (.display_text .connecting_to_wifi)
      match connect_wifi env g with
      | .aborted g => .aborted g
      | .blocked g => .blocked g
      | .returned status g =>
        if status ≠ Status.SUCCESS then .returned Status.FAILURE g
        else .returned Status.SUCCESS (g.call (.display_text .wifi_connected))
    else .aborted g

/-- The statics and trace an outcome ends with. -/
def Outcome.globals {α : Type} : Outcome α → Globals
  | .returned _ g => g
  | .aborted g => g
  | .blocked g => g

/-- Every checked ESP-IDF call made by `connect_wifi` returns `ESP_OK`. -/
def Env.connect_calls_ok (env : Env) : Prop :=
  env.esp_netif_init = ESP_OK ∧ env.esp_event_loop_create_default = ESP_OK ∧
  env.esp_wifi_init = ESP_OK ∧ env.register_wifi_event_handler = ESP_OK ∧
  env.register_ip_event_handler = ESP_OK ∧ env.esp_wifi_set_mode = ESP_OK ∧
  env.esp_wifi_set_config = ESP_OK ∧ env.esp_wifi_start = ESP_OK ∧
  env.unregister_ip_event_handler = ESP_OK ∧ env.unregister_wifi_event_handler = ESP_OK

instance (env : Env) : Decidable env.connect_calls_ok :=
  inferInstanceAs (Decidable (_ ∧ _))

/-- An environment in which every ESP-IDF call succeeds, with the given retry
budget, events and scheduling. -/
def Env.ok (MAX_FAILURES : Int) (events : List Event) (handled_before_wait : Nat) : Env :=
  { MAX_FAILURES := MAX_FAILURES, nvs_flash_init_first := ESP_OK, nvs_flash_erase := ESP_OK,
    nvs_flash_init_second := ESP_OK, esp_netif_init := ESP_OK,
    esp_event_loop_create_default := ESP_OK, esp_wifi_init := ESP_OK,
    register_wifi_event_handler := ESP_OK, register_ip_event_handler := ESP_OK,
    esp_wifi_set_mode := ESP_OK, esp_wifi_set_config := ESP_OK, esp_wifi_start := ESP_OK,
    unregister_ip_event_handler := ESP_OK, unregister_wifi_event_handler := ESP_OK,
    events := events, handled_before_wait := handled_before_wait }

/-- The calls the event handlers can make: a connect request or a gate signal
with one of the two masks. -/
def handler_call (c : Call) : Prop :=
  c = Call.esp_wifi_connect ∨ c = Call.xEventGroupSetBits WIFI_SUCCESS
    ∨ c = Call.xEventGroupSetBits WIFI_FAILURE

instance (c : Call) : Decidable (handler_call c) :=
  inferInstanceAs (Decidable (_ ∨ _))

/-- The calls that release a resource of the session: the two handler
deregistrations and the disposal of the gate. -/
def release_call (c : Call) : Prop :=
  c = Call.unregister_ip_event_handler ∨ c = Call.unregister_wifi_event_handler
    ∨ c = Call.vEventGroupDelete

instance (c : Call) : Decidable (release_call c) :=
  inferInstanceAs (Decidable (_ ∨ _))

/-- The calls `connect_wifi` makes from its entry up to and including
`esp_wifi_start` (lines 55-83) when every check passes. -/
def connect_wifi_setup_calls : List Call :=
  [.esp_netif_init, .esp_event_loop_create_default, .esp_netif_create_default_wifi_sta,
   .esp_wifi_init, .xEventGroupCreate, .register_wifi_event_handler,
   .register_ip_event_handler, .esp_wifi_set_mode, .esp_wifi_set_config, .esp_wifi_start]

/-- The statics when `connect_wifi` has started the interface: the gate is
freshly created and the setup calls are on the trace. -/
def connect_wifi_started (g : Globals) : Globals :=
  { retry_num := g.retry_num, wifi_event_group := 0,
    trace := g.trace ++ connect_wifi_setup_calls }

/-- The calls into the persistent storage (NVS). -/
def Call.is_storage : Call → Bool
  | .nvs_flash_init => true
  | .nvs_flash_erase => true
  | _ => false

/-- Number of `nvs_flash_erase` calls in a trace. -/
def storage_erases (t : List Call) : Nat :=
  t.count Call.nvs_flash_erase

/-- Number of `nvs_flash_init` calls in a trace. -/
def storage_inits (t : List Call) : Nat :=
  t.count Call.nvs_flash_init

/-- The condition of line 108: the storage reported no free pages or a new
version. -/
def recoverable_storage_fault (ret : esp_err_t) : Prop :=
  ret = ESP_ERR_NVS_NO_FREE_PAGES ∨ ret = ESP_ERR_NVS_NEW_VERSION_FOUND

instance (ret : esp_err_t) : Decidable (recoverable_storage_fault ret) :=
  inferInstanceAs (Decidable (_ ∨ _))

/-- The result of the last `nvs_flash_init` that `init_wifi` performs: the
second one if the first reported a recoverable fault and the erase succeeded,
else the first. -/
def last_init_result (env : Env) : esp_err_t :=
  if (env.nvs_flash_init_first = ESP_ERR_NVS_NO_FREE_PAGES
      ∨ env.nvs_flash_init_first = ESP_ERR_NVS_NEW_VERSION_FOUND)
      ∧ env.nvs_flash_erase = ESP_OK then
    env.nvs_flash_init_second
  else env.nvs_flash_init_first

/-- The run got as far as the connection phase: `connect_wifi` was entered
(its first statement calls `esp_netif_init`). -/
def enters_connection_phase (t : List Call) : Prop :=
  Call.esp_netif_init ∈ t

instance (t : List Call) : Decidable (enters_connection_phase t) :=
  inferInstanceAs (Decidable (_ ∈ _))

/-! ## Basic facts about event delivery -/

/-- Delivering a concatenation is delivering its parts in turn. -/
theorem run_append (N : Int) (es fs : List Event) (g : Globals) :
    run N (es ++ fs) g = run N fs (run N es g) := by
  induction es generalizing g with
  | nil => rfl
  | cons e es ih => simp [run, ih]

/-- Delivering one more event at the end. -/
theorem run_snoc (N : Int) (es : List Event) (e : Event) (g : Globals) :
    run N (es ++ [e]) g = deliver N e (run N es g) := by
  rw [run_append]; rfl

/-- `WIFI_EVENT_STA_START` issues a connect request and nothing else. -/
theorem deliver_started (N : Int) (g : Globals) :
    deliver N InterfaceStarted g = { g with trace := g.trace ++ [Call.esp_wifi_connect] } := by
  simp [deliver, wifi_event_handler, Globals.call]

/-- `WIFI_EVENT_STA_DISCONNECTED` within the budget: count and reconnect. -/
theorem deliver_disconnected_retry (N : Int) (g : Globals) (h : g.retry_num < N) :
    deliver N Disconnected g
      = { g with retry_num := g.retry_num + 1, trace := g.trace ++ [Call.esp_wifi_connect] } := by
  simp [deliver, wifi_event_handler, Globals.call, h]

/-- `WIFI_EVENT_STA_DISCONNECTED` with the budget used up: signal failure. -/
theorem deliver_disconnected_exhausted (N : Int) (g : Globals) (h : N ≤ g.retry_num) :
    deliver N Disconnected g
      = { g with wifi_event_group := g.wifi_event_group ||| WIFI_FAILURE,
                 trace := g.trace ++ [Call.xEventGroupSetBits WIFI_FAILURE] } := by
  have h' : ¬ g.retry_num < N := by omega
  simp [deliver, wifi_event_handler, xEventGroupSetBits, h']

/-- `IP_EVENT_STA_GOT_IP`: reset the counter and signal success. -/
theorem deliver_address_assigned (N : Int) (g : Globals) :
    deliver N AddressAssigned g
      = { retry_num := 0, wifi_event_group := g.wifi_event_group ||| WIFI_SUCCESS,
          trace := g.trace ++ [Call.xEventGroupSetBits WIFI_SUCCESS] } := by
  simp [deliver, ip_event_handler, xEventGroupSetBits]

/-- A run of `k` disconnects that stays within the budget retries `k` times. -/
theorem run_disconnected_within_budget (N : Int) (k : Nat) (g : Globals)
    (h : g.retry_num + k ≤ N) :
    run N (List.replicate k Disconnected) g
      = { g with retry_num := g.retry_num + k,
                 trace := g.trace ++ List.replicate k Call.esp_wifi_connect } := by
  induction k generalizing g with
  | zero => simp [run]
  | succ k ih =>
    have hlt : g.retry_num < N := by omega
    rw [List.replicate_succ, run, deliver_disconnected_retry N g hlt, ih]
    · simp only [List.replicate_succ, List.append_assoc, List.singleton_append]
      congr 1
      push_cast
      omega
    · simp only
      push_cast at h ⊢
      omega

/-! ## Gate bits -/

/-- The macro `1 << 0` is 1. -/
theorem WIFI_SUCCESS_eq : WIFI_SUCCESS = 1 := by decide

/-- The macro `1 << 1` is 2. -/
theorem WIFI_FAILURE_eq : WIFI_FAILURE = 2 := by decide

/-- Setting a mask makes exactly that mask read back under it. -/
theorem lor_land_same (b m : Nat) : (b ||| m) &&& m = m := by
  apply Nat.eq_of_testBit_eq
  intro i
  simp only [Nat.testBit_and, Nat.testBit_or]
  cases b.testBit i <;> cases m.testBit i <;> rfl

/-- Setting the success bit does not touch the failure bit. -/
theorem lor_success_land_failure (b : Nat) :
    (b ||| WIFI_SUCCESS) &&& WIFI_FAILURE = b &&& WIFI_FAILURE := by
  rw [Nat.and_distrib_right]
  have h : WIFI_SUCCESS &&& WIFI_FAILURE = 0 := by decide
  rw [h, Nat.or_zero]

/-- Setting the failure bit does not touch the success bit. -/
theorem lor_failure_land_success (b : Nat) :
    (b ||| WIFI_FAILURE) &&& WIFI_SUCCESS = b &&& WIFI_SUCCESS := by
  rw [Nat.and_distrib_right]
  have h : WIFI_FAILURE &&& WIFI_SUCCESS = 0 := by decide
  rw [h, Nat.or_zero]

/-- After or-ing in `WIFI_FAILURE` the failure bit reads as set. -/
theorem failure_signaled_set (g : Globals) (r : Int) (t : List Call) :
    failure_signaled { retry_num := r, wifi_event_group := g.wifi_event_group ||| WIFI_FAILURE,
                       trace := t } = true := by
  simp only [failure_signaled, lor_land_same]
  decide

/-- After or-ing in `WIFI_SUCCESS` the success bit reads as set. -/
theorem success_signaled_set (g : Globals) (r : Int) (t : List Call) :
    success_signaled { retry_num := r, wifi_event_group := g.wifi_event_group ||| WIFI_SUCCESS,
                       trace := t } = true := by
  simp only [success_signaled, lor_land_same]
  decide

/-! ## Retry budget (claims C1, C3, C4, C5) -/

/-- State after `InterfaceStarted` and `k` disconnects within the budget. -/
theorem run_started_disconnected (N k : Nat) (h : k ≤ N) :
    run N (InterfaceStarted :: List.replicate k Disconnected) Globals.initial
      = { retry_num := k, wifi_event_group := 0,
          trace := List.replicate (k + 1) Call.esp_wifi_connect } := by
  rw [run, deliver_started, run_disconnected_within_budget]
  · simp [Globals.initial, List.replicate_succ]
  · simp only [Globals.initial]
    omega

/-- State after `InterfaceStarted` and `N + 1` disconnects. -/
theorem run_started_exhausted (N : Nat) :
    run N (InterfaceStarted :: List.replicate (N + 1) Disconnected) Globals.initial
      = { retry_num := N, wifi_event_group := WIFI_FAILURE,
          trace := List.replicate (N + 1) Call.esp_wifi_connect
                    ++ [Call.xEventGroupSetBits WIFI_FAILURE] } := by
  have hsplit : InterfaceStarted :: List.replicate (N + 1) Disconnected
      = (InterfaceStarted :: List.replicate N Disconnected) ++ [Disconnected] := by
    rw [List.replicate_succ']
    rfl
  rw [hsplit, run_snoc, run_started_disconnected N N (Nat.le_refl N),
    deliver_disconnected_exhausted]
  · simp
  · simp

/-- C1: for every retry budget `N`, a fresh session that sees `InterfaceStarted`
and then `N + 1` disconnects fails exactly once. After the start and any
`k ≤ N` disconnects the failure bit is clear and `k + 1` connect requests have
been issued; the `(N + 1)`-th disconnect contributes the failure signal and
nothing else, so the whole trace is `N + 1` connect requests followed by one
`xEventGroupSetBits(WIFI_FAILURE)`, with `retry_num = N` at that point. -/
theorem exhausted_budget_fails_exactly_once (N : Nat) :
    (∀ k : Nat, k ≤ N →
      failure_signaled
          (run N (InterfaceStarted :: List.replicate k Disconnected) Globals.initial) = false
      ∧ (run N (InterfaceStarted :: List.replicate k Disconnected) Globals.initial).retry_num = k
      ∧ (run N (InterfaceStarted :: List.replicate k Disconnected) Globals.initial).trace
          = List.replicate (k + 1) Call.esp_wifi_connect)
    ∧ failure_signaled
        (run N (InterfaceStarted :: List.replicate (N + 1) Disconnected) Globals.initial) = true
    ∧ (run N (InterfaceStarted :: List.replicate (N + 1) Disconnected) Globals.initial).retry_num
        = N
    ∧ (run N (InterfaceStarted :: List.replicate (N + 1) Disconnected) Globals.initial).trace
        = List.replicate (N + 1) Call.esp_wifi_connect ++ [Call.xEventGroupSetBits WIFI_FAILURE]
    ∧ connect_requests
        (run N (InterfaceStarted :: List.replicate (N + 1) Disconnected) Globals.initial).trace
        = N + 1
    ∧ signals_of WIFI_FAILURE
        (run N (InterfaceStarted :: List.replicate (N + 1) Disconnected) Globals.initial).trace
        = 1
    ∧ signals
        (run N (InterfaceStarted :: List.replicate (N + 1) Disconnected) Globals.initial).trace
        = 1 := by
  refine ⟨?_, ?_⟩
  · intro k hk
    rw [run_started_disconnected N k hk]
    exact ⟨by simp [failure_signaled], rfl, rfl⟩
  · rw [run_started_exhausted]
    refine ⟨by simp [failure_signaled, WIFI_FAILURE_eq], rfl, rfl, ?_, ?_, ?_⟩
    · simp [connect_requests, List.count_replicate]
    · simp [signals_of, List.count_replicate]
    · simp [signals, List.countP_replicate, Call.is_signal]

/-- C1, scenario A: with `maxRetries = 3` the events
`[Started, Disconnected x 4]` fail on the fourth disconnect with
`retry_num = 3`, after four connect requests. -/
theorem exhausted_budget_scenario_A :
    failure_signaled
        (run (3 : Nat) (InterfaceStarted :: List.replicate 3 Disconnected) Globals.initial) = false
    ∧ failure_signaled
        (run (3 : Nat) (InterfaceStarted :: List.replicate 4 Disconnected) Globals.initial) = true
    ∧ (run (3 : Nat) (InterfaceStarted :: List.replicate 4 Disconnected) Globals.initial).retry_num
        = (3 : Nat)
    ∧ connect_requests
        (run (3 : Nat) (InterfaceStarted :: List.replicate 4 Disconnected) Globals.initial).trace
        = 4 :=
  ⟨((exhausted_budget_fails_exactly_once 3).1 3 (by decide)).1,
   (exhausted_budget_fails_exactly_once 3).2.1,
   (exhausted_budget_fails_exactly_once 3).2.2.1,
   (exhausted_budget_fails_exactly_once 3).2.2.2.2.1⟩

/-- One event keeps `retry_num` within `[0, N]`. -/
theorem deliver_retry_num_bounds (N : Nat) (e : Event) (g : Globals)
    (h : 0 ≤ g.retry_num ∧ g.retry_num ≤ N) :
    0 ≤ (deliver N e g).retry_num ∧ (deliver N e g).retry_num ≤ N := by
  obtain ⟨h0, hN⟩ := h
  rcases e with ⟨_ | _ | _⟩ | ⟨_ | _⟩
  · simpa [deliver, wifi_event_handler, Globals.call] using ⟨h0, hN⟩
  · by_cases hlt : g.retry_num < N
    · rw [deliver_disconnected_retry (N : Int) g hlt]
      constructor <;> simp only <;> omega
    · rw [deliver_disconnected_exhausted (N : Int) g (by omega)]
      exact ⟨h0, hN⟩
  · simpa [deliver, wifi_event_handler] using ⟨h0, hN⟩
  · rw [deliver_address_assigned]
    simp
  · simpa [deliver] using ⟨h0, hN⟩

/-- Any event sequence keeps `retry_num` within `[0, N]`. -/
theorem run_retry_num_bounds (N : Nat) (es : List Event) (g : Globals)
    (h : 0 ≤ g.retry_num ∧ g.retry_num ≤ N) :
    0 ≤ (run N es g).retry_num ∧ (run N es g).retry_num ≤ N := by
  induction es generalizing g with
  | nil => exact h
  | cons e es ih => exact ih _ (deliver_retry_num_bounds N e g h)

/-- How one event changes `retry_num`, from any state. -/
theorem deliver_retry_num_step (N : Int) (e : Event) (g : Globals) :
    (e = AddressAssigned → (deliver N e g).retry_num = 0)
    ∧ (e ≠ AddressAssigned →
        (deliver N e g).retry_num = g.retry_num
        ∨ (deliver N e g).retry_num = g.retry_num + 1) := by
  rcases e with ⟨_ | _ | _⟩ | ⟨_ | _⟩
  · simp [deliver, wifi_event_handler, Globals.call]
  · by_cases hlt : g.retry_num < N
    · rw [deliver_disconnected_retry N g hlt]
      simp
    · rw [deliver_disconnected_exhausted N g (by omega)]
      simp
  · simp [deliver, wifi_event_handler]
  · rw [deliver_address_assigned]
    simp
  · simp [deliver]

/-- The C `int` increment of `retry_num` never overflows: from a counter that
fits a 32-bit `int` and a budget that fits one, every event leaves a counter
that fits, so the unbounded counter of the model is the machine counter. -/
theorem retry_num_in_int_range (N : Int) (e : Event) (g : Globals)
    (hN : N ≤ 2 ^ 31 - 1) (hg : -(2 ^ 31) ≤ g.retry_num ∧ g.retry_num ≤ 2 ^ 31 - 1) :
    -(2 ^ 31) ≤ (deliver N e g).retry_num ∧ (deliver N e g).retry_num ≤ 2 ^ 31 - 1 := by
  rcases e with ⟨_ | _ | _⟩ | ⟨_ | _⟩
  · simpa [deliver, wifi_event_handler, Globals.call] using hg
  · by_cases hlt : g.retry_num < N
    · rw [deliver_disconnected_retry N g hlt]
      constructor <;> simp only <;> omega
    · rw [deliver_disconnected_exhausted N g (by omega)]
      exact hg
  · simpa [deliver, wifi_event_handler] using hg
  · rw [deliver_address_assigned]
    simp
  · simpa [deliver] using hg

/-- C3: for every retry budget `N` and every event sequence `es` delivered from
the initial state, followed by one more event `e`: `retry_num` is within
`[0, N]` before and after `e`; it decreases across `e` only if `e` is
`AddressAssigned`, which sets it to 0; every other event leaves it unchanged
or increases it by exactly one. -/
theorem retry_num_stays_within_budget (N : Nat) (es : List Event) (e : Event) :
    (0 ≤ (run N es Globals.initial).retry_num ∧ (run N es Globals.initial).retry_num ≤ N)
    ∧ (0 ≤ (run N (es ++ [e]) Globals.initial).retry_num
        ∧ (run N (es ++ [e]) Globals.initial).retry_num ≤ N)
    ∧ ((run N (es ++ [e]) Globals.initial).retry_num < (run N es Globals.initial).retry_num →
        e = AddressAssigned)
    ∧ (e = AddressAssigned → (run N (es ++ [e]) Globals.initial).retry_num = 0)
    ∧ (e ≠ AddressAssigned →
        (run N (es ++ [e]) Globals.initial).retry_num = (run N es Globals.initial).retry_num
        ∨ (run N (es ++ [e]) Globals.initial).retry_num
            = (run N es Globals.initial).retry_num + 1) := by
  have hinit : 0 ≤ Globals.initial.retry_num ∧ Globals.initial.retry_num ≤ (N : Int) := by
    simp [Globals.initial]
  have hstep := deliver_retry_num_step N e (run N es Globals.initial)
  refine ⟨run_retry_num_bounds N es _ hinit, run_retry_num_bounds N (es ++ [e]) _ hinit, ?_,
    ?_, ?_⟩
  · intro hlt
    by_contra hne
    rw [run_snoc] at hlt
    rcases hstep.2 hne with h | h <;> omega
  · intro he
    rw [run_snoc]
    exact hstep.1 he
  · intro hne
    rw [run_snoc]
    exact hstep.2 hne

/-- C3 at a concrete run: with budget 2, after `[Started, Disconnected]` the
counter is 1 and `AddressAssigned` brings it down to 0. -/
theorem retry_num_stays_within_budget_witness :
    (run (2 : Nat) ([InterfaceStarted, Disconnected] ++ [AddressAssigned])
        Globals.initial).retry_num = 0
    ∧ (run (2 : Nat) [InterfaceStarted, Disconnected] Globals.initial).retry_num = 1 :=
  ⟨(retry_num_stays_within_budget 2 [InterfaceStarted, Disconnected] AddressAssigned).2.2.2.1 rfl,
   by decide⟩

/-- What one event does to the failure signal, from any state: the handlers
call `xEventGroupSetBits(WIFI_FAILURE)` once if the event is `Disconnected`
and the budget is used up, and otherwise neither call it nor change the
failure bit. -/
theorem deliver_failure_signal (N : Int) (e : Event) (g : Globals) :
    (e = Disconnected ∧ N ≤ g.retry_num →
      signals_of WIFI_FAILURE (deliver N e g).trace = signals_of WIFI_FAILURE g.trace + 1
      ∧ failure_signaled (deliver N e g) = true)
    ∧ (¬ (e = Disconnected ∧ N ≤ g.retry_num) →
      signals_of WIFI_FAILURE (deliver N e g).trace = signals_of WIFI_FAILURE g.trace
      ∧ failure_signaled (deliver N e g) = failure_signaled g) := by
  rcases e with ⟨_ | _ | _⟩ | ⟨_ | _⟩
  · simp [deliver, wifi_event_handler, Globals.call, signals_of, failure_signaled]
  · by_cases hlt : g.retry_num < N
    · rw [deliver_disconnected_retry N g hlt]
      have hn : ¬ N ≤ g.retry_num := by omega
      simp [signals_of, failure_signaled, hn]
    · have hle : N ≤ g.retry_num := by omega
      rw [deliver_disconnected_exhausted N g hle]
      simp [signals_of, failure_signaled, hle, lor_land_same, WIFI_FAILURE_eq]
  · simp [deliver, wifi_event_handler, signals_of, failure_signaled]
  · rw [deliver_address_assigned]
    have hne : ¬ (AddressAssigned = Disconnected ∧ N ≤ g.retry_num) :=
      fun h => Event.noConfusion h.1
    have hkind : Call.xEventGroupSetBits WIFI_SUCCESS ≠ Call.xEventGroupSetBits WIFI_FAILURE := by
      decide
    refine ⟨fun h => absurd h hne, fun _ => ⟨?_, ?_⟩⟩
    · simp only [signals_of, List.count_append, List.count_singleton, beq_iff_eq, hkind,
        if_false, Nat.add_zero]
    · simp only [failure_signaled, lor_success_land_failure]
  · simp [deliver, signals_of, failure_signaled]

/-- C4: from every state, a `Disconnected` event with `retry_num < maxRetries`
increments `retry_num` by one, issues one connect request and leaves the gate
unchanged; with `retry_num >= maxRetries` it leaves `retry_num` unchanged,
issues no connect request and sets the failure bit. A step signals failure
(calls `xEventGroupSetBits(WIFI_FAILURE)`) if and only if its event is
`Disconnected` and `retry_num >= maxRetries`; every other step leaves the
failure bit as it was, so from a state with the bit clear the bit is set after
the step exactly in that case. -/
theorem disconnected_is_the_sole_failure_path (N : Int) (g : Globals) (e : Event) :
    (e = Disconnected → g.retry_num < N →
      deliver N e g
        = { g with retry_num := g.retry_num + 1,
                   trace := g.trace ++ [Call.esp_wifi_connect] })
    ∧ (e = Disconnected → N ≤ g.retry_num →
      deliver N e g
        = { g with wifi_event_group := g.wifi_event_group ||| WIFI_FAILURE,
                   trace := g.trace ++ [Call.xEventGroupSetBits WIFI_FAILURE] }
      ∧ failure_signaled (deliver N e g) = true)
    ∧ (signals_of WIFI_FAILURE (deliver N e g).trace = signals_of WIFI_FAILURE g.trace + 1
        ↔ e = Disconnected ∧ N ≤ g.retry_num)
    ∧ (¬ (e = Disconnected ∧ N ≤ g.retry_num) →
        signals_of WIFI_FAILURE (deliver N e g).trace = signals_of WIFI_FAILURE g.trace
        ∧ failure_signaled (deliver N e g) = failure_signaled g)
    ∧ (failure_signaled g = false →
        (failure_signaled (deliver N e g) = true ↔ e = Disconnected ∧ N ≤ g.retry_num)) := by
  have hsig := deliver_failure_signal N e g
  refine ⟨?_, ?_, ?_, hsig.2, ?_⟩
  · intro he hlt
    rw [he]
    exact deliver_disconnected_retry N g hlt
  · intro he hle
    refine ⟨?_, (hsig.1 ⟨he, hle⟩).2⟩
    rw [he]
    exact deliver_disconnected_exhausted N g hle
  · constructor
    · intro h
      by_contra hn
      have := (hsig.2 hn).1
      omega
    · intro h
      exact (hsig.1 h).1
  · intro hclear
    constructor
    · intro h
      by_contra hn
      have := (hsig.2 hn).2
      rw [h, hclear] at this
      exact Bool.noConfusion this
    · intro h
      exact (hsig.1 h).2

/-- C4 at concrete states with budget 3: at `retry_num = 1` a disconnect
retries, at `retry_num = 3` it signals failure. -/
theorem disconnected_is_the_sole_failure_path_witness :
    deliver 3 Disconnected { retry_num := 1, wifi_event_group := 0, trace := [] }
      = { retry_num := 2, wifi_event_group := 0, trace := [Call.esp_wifi_connect] }
    ∧ failure_signaled
        (deliver 3 Disconnected { retry_num := 3, wifi_event_group := 0, trace := [] }) = true :=
  ⟨(disconnected_is_the_sole_failure_path 3
      { retry_num := 1, wifi_event_group := 0, trace := [] } Disconnected).1 rfl (by decide),
   ((disconnected_is_the_sole_failure_path 3
      { retry_num := 3, wifi_event_group := 0, trace := [] } Disconnected).2.1 rfl
        (by decide)).2⟩

/-- C5: from every state, `AddressAssigned` sets `retry_num` to 0 and sets the
success bit; the disconnects that follow get the full budget `N` again: each
of the next `k ≤ N` issues a connect request and nothing else (no failure
signal, gate unchanged), and the `(N + 1)`-th is the one that signals
failure. -/
theorem address_assigned_restores_budget (N : Nat) (g : Globals) :
    (deliver N AddressAssigned g).retry_num = 0
    ∧ success_signaled (deliver N AddressAssigned g) = true
    ∧ (deliver N AddressAssigned g).trace = g.trace ++ [Call.xEventGroupSetBits WIFI_SUCCESS]
    ∧ (∀ k : Nat, k ≤ N →
        run N (List.replicate k Disconnected) (deliver N AddressAssigned g)
          = { retry_num := k,
              wifi_event_group := (deliver N AddressAssigned g).wifi_event_group,
              trace := (deliver N AddressAssigned g).trace
                        ++ List.replicate k Call.esp_wifi_connect })
    ∧ run N (List.replicate (N + 1) Disconnected) (deliver N AddressAssigned g)
        = { retry_num := N,
            wifi_event_group :=
              (deliver N AddressAssigned g).wifi_event_group ||| WIFI_FAILURE,
            trace := (deliver N AddressAssigned g).trace
                      ++ List.replicate N Call.esp_wifi_connect
                      ++ [Call.xEventGroupSetBits WIFI_FAILURE] } := by
  have hk : ∀ k : Nat, k ≤ N →
      run N (List.replicate k Disconnected) (deliver N AddressAssigned g)
        = { retry_num := k,
            wifi_event_group := (deliver N AddressAssigned g).wifi_event_group,
            trace := (deliver N AddressAssigned g).trace
                      ++ List.replicate k Call.esp_wifi_connect } := by
    intro k hk
    rw [run_disconnected_within_budget]
    · simp [deliver_address_assigned]
    · simp only [deliver_address_assigned]
      omega
  refine ⟨?_, ?_, ?_, hk, ?_⟩
  · rw [deliver_address_assigned]
  · rw [deliver_address_assigned]
    exact success_signaled_set g 0 _
  · rw [deliver_address_assigned]
  · rw [List.replicate_succ', run_snoc, hk N (Nat.le_refl N), deliver_disconnected_exhausted]
    simp

/-- C5 at a concrete state: budget 2, from a state with `retry_num = 2` and
the failure bit already set, `AddressAssigned` resets the counter and the next
two disconnects are retried again. -/
theorem address_assigned_restores_budget_witness :
    run (2 : Nat) (List.replicate 2 Disconnected)
        (deliver (2 : Nat) AddressAssigned
          { retry_num := 2, wifi_event_group := 2, trace := [] })
      = { retry_num := (2 : Nat),
          wifi_event_group :=
            (deliver (2 : Nat) AddressAssigned
              { retry_num := 2, wifi_event_group := 2, trace := [] }).wifi_event_group,
          trace :=
            (deliver (2 : Nat) AddressAssigned
              { retry_num := 2, wifi_event_group := 2, trace := [] }).trace
              ++ List.replicate 2 Call.esp_wifi_connect } :=
  (address_assigned_restores_budget 2
    { retry_num := 2, wifi_event_group := 2, trace := [] }).2.2.2.1 2 (by decide)

/-! ## The blocking wait and `connect_wifi` -/

/-- Every call made while delivering events is a handler call. -/
theorem run_trace (N : Int) (es : List Event) (g : Globals) :
    ∃ t, (run N es g).trace = g.trace ++ t ∧ ∀ c ∈ t, handler_call c := by
  induction es generalizing g with
  | nil => exact ⟨[], by simp [run], by simp⟩
  | cons e es ih =>
    obtain ⟨t, ht, hall⟩ := ih (deliver N e g)
    have hd : ∃ d, (deliver N e g).trace = g.trace ++ d ∧ ∀ c ∈ d, handler_call c := by
      rcases e with ⟨_ | _ | _⟩ | ⟨_ | _⟩
      · exact ⟨[Call.esp_wifi_connect], by simp [deliver_started], by simp [handler_call]⟩
      · by_cases hlt : g.retry_num < N
        · exact ⟨[Call.esp_wifi_connect], by rw [deliver_disconnected_retry N g hlt],
            by simp [handler_call]⟩
        · exact ⟨[Call.xEventGroupSetBits WIFI_FAILURE],
            by rw [deliver_disconnected_exhausted N g (by omega)], by simp [handler_call]⟩
      · exact ⟨[], by simp [deliver, wifi_event_handler], by simp⟩
      · exact ⟨[Call.xEventGroupSetBits WIFI_SUCCESS], by rw [deliver_address_assigned],
          by simp [handler_call]⟩
      · exact ⟨[], by simp [deliver], by simp⟩
    obtain ⟨d, hd, hdall⟩ := hd
    refine ⟨d ++ t, ?_, ?_⟩
    · rw [run, ht, hd, List.append_assoc]
    · intro c hc
      rcases List.mem_append.mp hc with h | h
      · exact hdall c h
      · exact hall c h

/-- When the wait returns, it returns the gate value reached after some prefix
of the pending events, a value with a bit of the mask set, and records it. -/
theorem xEventGroupWaitBits_returned (N : Int) (m : Nat) (es : List Event) (g : Globals)
    (b : Nat) (g' : Globals) (h : xEventGroupWaitBits N m es g = .returned b g') :
    ∃ n, b = (run N (es.take n) g).wifi_event_group ∧ b &&& m ≠ 0
      ∧ g' = (run N (es.take n) g).call (.xEventGroupWaitBits b) := by
  induction es generalizing g with
  | nil =>
    rw [xEventGroupWaitBits] at h
    split at h
    · rename_i hb
      injection h with h1 h2
      exact ⟨0, by simpa [run] using h1.symm, by rw [← h1]; exact hb,
        by rw [← h2, ← h1]; simp [run]⟩
    · exact Outcome.noConfusion h
  | cons e es ih =>
    rw [xEventGroupWaitBits] at h
    split at h
    · rename_i hb
      injection h with h1 h2
      exact ⟨0, by simpa [run] using h1.symm, by rw [← h1]; exact hb,
        by rw [← h2, ← h1]; simp [run]⟩
    · obtain ⟨n, h1, h2, h3⟩ := ih (deliver N e g) h
      exact ⟨n + 1, by simpa [run] using h1, h2, by simpa [run] using h3⟩

/-- The wait itself never aborts. -/
theorem xEventGroupWaitBits_not_aborted (N : Int) (m : Nat) (es : List Event) (g g' : Globals) :
    xEventGroupWaitBits N m es g ≠ .aborted g' := by
  induction es generalizing g with
  | nil =>
    rw [xEventGroupWaitBits]
    split <;> exact fun h => Outcome.noConfusion h
  | cons e es ih =>
    rw [xEventGroupWaitBits]
    split
    · exact fun h => Outcome.noConfusion h
    · exact ih _

/-- The wait returns as soon as the pending events set a bit of the mask. -/
theorem xEventGroupWaitBits_returns (N : Int) (m : Nat) (es : List Event) (g : Globals)
    (h : (run N es g).wifi_event_group &&& m ≠ 0) :
    ∃ b g', xEventGroupWaitBits N m es g = .returned b g' := by
  induction es generalizing g with
  | nil =>
    rw [xEventGroupWaitBits]
    rw [run] at h
    exact ⟨_, _, if_pos h⟩
  | cons e es ih =>
    rw [xEventGroupWaitBits]
    by_cases hb : g.wifi_event_group &&& m ≠ 0
    · exact ⟨_, _, if_pos hb⟩
    · rw [if_neg hb]
      exact ih _ h

/-- With every checked call returning `ESP_OK`, `connect_wifi` is the wait on
the freshly created gate followed by the status mapping and the releases. -/
theorem connect_wifi_of_calls_ok (env : Env) (g : Globals) (hok : env.connect_calls_ok) :
    connect_wifi env g
      = match xEventGroupWaitBits env.MAX_FAILURES (WIFI_SUCCESS ||| WIFI_FAILURE)
            (env.events.drop env.handled_before_wait)
            (run env.MAX_FAILURES (env.events.take env.handled_before_wait)
              (connect_wifi_started g)) with
        | .aborted g1 => .aborted g1
        | .blocked g1 => .blocked g1
        | .returned bits g1 =>
          .returned (if bits = WIFI_SUCCESS then Status.SUCCESS else Status.FAILURE)
            { g1 with trace := g1.trace ++ [Call.unregister_ip_event_handler,
                Call.unregister_wifi_event_handler, Call.vEventGroupDelete] } := by
  obtain ⟨h1, h2, h3, h4, h5, h6, h7, h8, h9, h10⟩ := hok
  simp only [connect_wifi, ESP_ERROR_CHECK, h1, h2, h3, h4, h5, h6, h7, h8, h9, h10, if_true,
    Globals.call, connect_wifi_started, connect_wifi_setup_calls, List.append_assoc,
    List.singleton_append, List.cons_append, List.nil_append]

/-- Whenever `connect_wifi` returns, every checked call returned `ESP_OK`. -/
theorem connect_wifi_returned_calls_ok (env : Env) (g : Globals) (status : Status)
    (g' : Globals) (h : connect_wifi env g = .returned status g') : env.connect_calls_ok := by
  unfold connect_wifi ESP_ERROR_CHECK at h
  by_cases h1 : env.esp_netif_init = ESP_OK
  case neg => simp [h1] at h
  by_cases h2 : env.esp_event_loop_create_default = ESP_OK
  case neg => simp [h1, h2] at h
  by_cases h3 : env.esp_wifi_init = ESP_OK
  case neg => simp [h1, h2, h3] at h
  by_cases h4 : env.register_wifi_event_handler = ESP_OK
  case neg => simp [h1, h2, h3, h4] at h
  by_cases h5 : env.register_ip_event_handler = ESP_OK
  case neg => simp [h1, h2, h3, h4, h5] at h
  by_cases h6 : env.esp_wifi_set_mode = ESP_OK
  case neg => simp [h1, h2, h3, h4, h5, h6] at h
  by_cases h7 : env.esp_wifi_set_config = ESP_OK
  case neg => simp [h1, h2, h3, h4, h5, h6, h7] at h
  by_cases h8 : env.esp_wifi_start = ESP_OK
  case neg => simp [h1, h2, h3, h4, h5, h6, h7, h8] at h
  simp only [h1, h2, h3, h4, h5, h6, h7, h8, if_true] at h
  split at h
  · exact Outcome.noConfusion h
  · exact Outcome.noConfusion h
  · by_cases h9 : env.unregister_ip_event_handler = ESP_OK
    case neg => simp [h9] at h
    by_cases h10 : env.unregister_wifi_event_handler = ESP_OK
    case neg => simp [h9, h10] at h
    exact ⟨h1, h2, h3, h4, h5, h6, h7, h8, h9, h10⟩

/-- What a returning `connect_wifi` did: every checked call passed; the events
of some prefix were delivered on the fresh gate; the value `bits` of the gate
at that point has a waited-for bit set and is what the wait returned; the
status is `SUCCESS` exactly for `bits == WIFI_SUCCESS`; and the trace ends
with the wait, the two deregistrations and the disposal of the gate. -/
theorem connect_wifi_returned (env : Env) (g : Globals) (status : Status) (g' : Globals)
    (h : connect_wifi env g = .returned status g') :
    ∃ n bits,
      bits = (run env.MAX_FAILURES (env.events.take n) (connect_wifi_started g)).wifi_event_group
      ∧ bits &&& (WIFI_SUCCESS ||| WIFI_FAILURE) ≠ 0
      ∧ status = (if bits = WIFI_SUCCESS then Status.SUCCESS else Status.FAILURE)
      ∧ g' = { run env.MAX_FAILURES (env.events.take n) (connect_wifi_started g) with
                trace := (run env.MAX_FAILURES (env.events.take n)
                            (connect_wifi_started g)).trace
                  ++ [Call.xEventGroupWaitBits bits, Call.unregister_ip_event_handler,
                      Call.unregister_wifi_event_handler, Call.vEventGroupDelete] } := by
  have hok := connect_wifi_returned_calls_ok env g status g' h
  rw [connect_wifi_of_calls_ok env g hok] at h
  split at h
  · exact Outcome.noConfusion h
  · exact Outcome.noConfusion h
  · rename_i bits g1 hw
    obtain ⟨n, hb, hm, hg1⟩ := xEventGroupWaitBits_returned _ _ _ _ _ _ hw
    rw [← run_append, ← List.take_add] at hb hg1
    injection h with hs hg
    refine ⟨env.handled_before_wait + n, bits, hb, hm, hs.symm, ?_⟩
    rw [← hg, hg1]
    simp [Globals.call]

/-- The caller is not left blocked: with every checked call returning
`ESP_OK` and events that set a gate bit, `connect_wifi` returns. -/
theorem connect_wifi_returns (env : Env) (g : Globals) (hok : env.connect_calls_ok)
    (hbits : (run env.MAX_FAILURES env.events (connect_wifi_started g)).wifi_event_group
      &&& (WIFI_SUCCESS ||| WIFI_FAILURE) ≠ 0) :
    ∃ status g', connect_wifi env g = .returned status g' := by
  rw [connect_wifi_of_calls_ok env g hok]
  have hsplit : run env.MAX_FAILURES env.events (connect_wifi_started g)
      = run env.MAX_FAILURES (env.events.drop env.handled_before_wait)
          (run env.MAX_FAILURES (env.events.take env.handled_before_wait)
            (connect_wifi_started g)) := by
    rw [← run_append, List.take_append_drop]
  rw [hsplit] at hbits
  obtain ⟨b, g1, hw⟩ := xEventGroupWaitBits_returns _ _ _ _ hbits
  rw [hw]
  exact ⟨_, _, rfl⟩

/-- Gate and counter after any prefix of `Started, k x Disconnected` with
`k` within the budget, on a fresh session: the gate is untouched. -/
theorem run_take_started_disconnected (N k n : Nat) (g : Globals) (hk : k ≤ N)
    (hg : g.retry_num = 0) :
    (run N ((InterfaceStarted :: List.replicate k Disconnected).take n) g).wifi_event_group
      = g.wifi_event_group := by
  cases n with
  | zero => simp [run]
  | succ n =>
    rw [List.take_succ_cons, List.take_replicate, run, deliver_started,
      run_disconnected_within_budget]
    simp only [hg]
    have : min n k ≤ N := le_trans (Nat.min_le_right n k) hk
    omega

/-- C6: for every retry budget `N`, every `k ≤ N` and every scheduling of the
event task, a fresh session (`retry_num = 0`) whose events are
`InterfaceStarted`, `k` times `Disconnected`, `AddressAssigned`, and whose
checked ESP-IDF calls succeed, makes `connect_wifi` return `SUCCESS`; the gate
value read at wake-up is exactly `WIFI_SUCCESS` and `retry_num` is 0. -/
theorem connect_wifi_succeeds_within_budget (env : Env) (g : Globals) (N k : Nat)
    (hk : k ≤ N) (hN : env.MAX_FAILURES = N) (hg : g.retry_num = 0)
    (hok : env.connect_calls_ok)
    (hev : env.events = (InterfaceStarted :: List.replicate k Disconnected) ++ [AddressAssigned]) :
    ∃ g', connect_wifi env g = .returned Status.SUCCESS g'
      ∧ g'.retry_num = 0
      ∧ g'.wifi_event_group = WIFI_SUCCESS
      ∧ Call.xEventGroupWaitBits WIFI_SUCCESS ∈ g'.trace := by
  have hg0 : (connect_wifi_started g).retry_num = 0 := hg
  have hfull : run N env.events (connect_wifi_started g)
      = { retry_num := 0, wifi_event_group := WIFI_SUCCESS,
          trace := (run N (InterfaceStarted :: List.replicate k Disconnected)
                      (connect_wifi_started g)).trace
                    ++ [Call.xEventGroupSetBits WIFI_SUCCESS] } := by
    have h0 := run_take_started_disconnected N k (k + 1) (connect_wifi_started g) hk hg0
    rw [List.take_of_length_le (by simp)] at h0
    rw [hev, run_snoc, deliver_address_assigned, h0]
    simp [connect_wifi_started]
  have hbits : (run env.MAX_FAILURES env.events (connect_wifi_started g)).wifi_event_group
      &&& (WIFI_SUCCESS ||| WIFI_FAILURE) ≠ 0 := by
    rw [hN, hfull]
    show WIFI_SUCCESS &&& (WIFI_SUCCESS ||| WIFI_FAILURE) ≠ 0
    decide
  obtain ⟨status, g', hret⟩ := connect_wifi_returns env g hok hbits
  obtain ⟨n, bits, hb, hm, hs, hg'⟩ := connect_wifi_returned env g status g' hret
  rw [hN] at hb hg'
  have hwhole : env.events.take n = env.events := by
    by_contra hne
    have hle : n ≤ (InterfaceStarted :: List.replicate k Disconnected).length := by
      by_contra hgt
      apply hne
      apply List.take_of_length_le
      rw [hev]
      simp only [List.length_append, List.length_cons, List.length_replicate,
        List.length_nil] at hgt ⊢
      omega
    rw [hev, List.take_append_of_le_length hle,
      run_take_started_disconnected N k n (connect_wifi_started g) hk hg0] at hb
    rw [hb] at hm
    exact hm (by simp [connect_wifi_started])
  rw [hwhole, hfull] at hb hg'
  simp only at hb
  rw [hb] at hs hg'
  rw [if_pos rfl] at hs
  refine ⟨g', by rw [hret, hs], ?_, ?_, ?_⟩
  · rw [hg']
  · rw [hg']
  · rw [hg']
    simp

/-- C6, scenarios B and C: `[Started, AddressAssigned]` (budget 0) and, with
`maxRetries = 1`, `[Started, Disconnected, AddressAssigned]` both make
`connect_wifi` return `SUCCESS` with `retry_num = 0`. -/
theorem connect_wifi_succeeds_scenarios_B_C :
    (∃ g', connect_wifi (Env.ok (0 : Nat) [InterfaceStarted, AddressAssigned] 0) Globals.initial
        = .returned Status.SUCCESS g'
      ∧ g'.retry_num = 0
      ∧ g'.wifi_event_group = WIFI_SUCCESS
      ∧ Call.xEventGroupWaitBits WIFI_SUCCESS ∈ g'.trace)
    ∧ (∃ g', connect_wifi (Env.ok (1 : Nat) [InterfaceStarted, Disconnected, AddressAssigned] 0)
          Globals.initial
        = .returned Status.SUCCESS g'
      ∧ g'.retry_num = 0
      ∧ g'.wifi_event_group = WIFI_SUCCESS
      ∧ Call.xEventGroupWaitBits WIFI_SUCCESS ∈ g'.trace) :=
  ⟨connect_wifi_succeeds_within_budget (Env.ok (0 : Nat) [InterfaceStarted, AddressAssigned] 0)
      Globals.initial 0 0 (by decide) rfl rfl
      ⟨rfl, rfl, rfl, rfl, rfl, rfl, rfl, rfl, rfl, rfl⟩ rfl,
   connect_wifi_succeeds_within_budget
      (Env.ok (1 : Nat) [InterfaceStarted, Disconnected, AddressAssigned] 0)
      Globals.initial 1 1 (by decide) rfl rfl
      ⟨rfl, rfl, rfl, rfl, rfl, rfl, rfl, rfl, rfl, rfl⟩ rfl⟩

/-- No handler call and no setup call is a release. -/
theorem setup_and_handler_calls_not_release (t : List Call) (ht : ∀ c ∈ t, handler_call c) :
    ∀ c ∈ connect_wifi_setup_calls ++ t, ¬ release_call c := by
  intro c hc hrel
  rcases List.mem_append.mp hc with h | h
  · simp only [connect_wifi_setup_calls, List.mem_cons, List.mem_singleton,
      List.mem_nil_iff, or_false] at h
    rcases h with h | h | h | h | h | h | h | h | h | h <;>
      (subst h; simp [release_call] at hrel)
  · rcases ht c h with h | h | h <;> (subst h; simp [release_call] at hrel)

/-- Trace of a returning `connect_wifi`: setup and handler calls, then the
wait with the bits it read, then the three releases. -/
theorem connect_wifi_returned_trace (env : Env) (g : Globals) (status : Status) (g' : Globals)
    (h : connect_wifi env g = .returned status g') :
    ∃ t bits,
      g'.trace = g.trace ++ (connect_wifi_setup_calls ++ t)
          ++ [Call.xEventGroupWaitBits bits, Call.unregister_ip_event_handler,
              Call.unregister_wifi_event_handler, Call.vEventGroupDelete]
      ∧ (∀ c ∈ t, handler_call c)
      ∧ g'.wifi_event_group = bits
      ∧ bits &&& (WIFI_SUCCESS ||| WIFI_FAILURE) ≠ 0
      ∧ status = (if bits = WIFI_SUCCESS then Status.SUCCESS else Status.FAILURE) := by
  obtain ⟨n, bits, hb, hm, hs, hg'⟩ := connect_wifi_returned env g status g' h
  obtain ⟨t, ht, hall⟩ := run_trace env.MAX_FAILURES (env.events.take n) (connect_wifi_started g)
  refine ⟨t, bits, ?_, hall, ?_, hm, hs⟩
  · rw [hg']
    simp only [ht]
    simp only [connect_wifi_started, List.append_assoc]
  · rw [hg', hb]

/-- C8: on every path on which `connect_wifi` returns a status (`SUCCESS` or
`FAILURE`), the calls it adds to the trace are: calls none of which is a
release, then the return of the gate wait with the bits it read, then exactly
`unregister(IP_EVENT)`, `unregister(WIFI_EVENT)`, `vEventGroupDelete`, in this
order and once each; the status returned is the one mapped from those bits.
It does return whenever the checked calls succeed and the events set a gate
bit. -/
theorem connect_wifi_releases_exactly_once (env : Env) (g : Globals) :
    (∀ status g', connect_wifi env g = .returned status g' →
      ∃ before bits,
        g'.trace = g.trace ++ before
            ++ [Call.xEventGroupWaitBits bits, Call.unregister_ip_event_handler,
                Call.unregister_wifi_event_handler, Call.vEventGroupDelete]
        ∧ (∀ c ∈ before, ¬ release_call c)
        ∧ status = (if bits = WIFI_SUCCESS then Status.SUCCESS else Status.FAILURE))
    ∧ (env.connect_calls_ok →
        (run env.MAX_FAILURES env.events (connect_wifi_started g)).wifi_event_group
          &&& (WIFI_SUCCESS ||| WIFI_FAILURE) ≠ 0 →
        ∃ status g', connect_wifi env g = .returned status g') := by
  refine ⟨?_, connect_wifi_returns env g⟩
  intro status g' h
  obtain ⟨t, bits, htrace, hall, _, _, hs⟩ := connect_wifi_returned_trace env g status g' h
  exact ⟨connect_wifi_setup_calls ++ t, bits, htrace,
    setup_and_handler_calls_not_release t hall, hs⟩

/-- C8 on both exit paths: a session that connects and a session that runs
out of retries (budget 1) each end with the wait, the two deregistrations and
the disposal. -/
theorem connect_wifi_releases_exactly_once_witness :
    (∃ before bits,
      (Globals.mk 0 1 (connect_wifi_setup_calls
          ++ [Call.esp_wifi_connect, Call.xEventGroupSetBits 1, Call.xEventGroupWaitBits 1,
              Call.unregister_ip_event_handler, Call.unregister_wifi_event_handler,
              Call.vEventGroupDelete])).trace
        = Globals.initial.trace ++ before
            ++ [Call.xEventGroupWaitBits bits, Call.unregister_ip_event_handler,
                Call.unregister_wifi_event_handler, Call.vEventGroupDelete]
        ∧ (∀ c ∈ before, ¬ release_call c)
        ∧ Status.SUCCESS = (if bits = WIFI_SUCCESS then Status.SUCCESS else Status.FAILURE))
    ∧ (∃ before bits,
      (Globals.mk 1 2 (connect_wifi_setup_calls
          ++ [Call.esp_wifi_connect, Call.esp_wifi_connect, Call.xEventGroupSetBits 2,
              Call.xEventGroupWaitBits 2,
              Call.unregister_ip_event_handler, Call.unregister_wifi_event_handler,
              Call.vEventGroupDelete])).trace
        = Globals.initial.trace ++ before
            ++ [Call.xEventGroupWaitBits bits, Call.unregister_ip_event_handler,
                Call.unregister_wifi_event_handler, Call.vEventGroupDelete]
        ∧ (∀ c ∈ before, ¬ release_call c)
        ∧ Status.FAILURE = (if bits = WIFI_SUCCESS then Status.SUCCESS else Status.FAILURE)) :=
  ⟨(connect_wifi_releases_exactly_once (Env.ok 1 [InterfaceStarted, AddressAssigned] 0)
      Globals.initial).1 Status.SUCCESS _ (by decide),
   (connect_wifi_releases_exactly_once
      (Env.ok 1 [InterfaceStarted, Disconnected, Disconnected] 0)
      Globals.initial).1 Status.FAILURE _ (by decide)⟩

/-- Or-ing in a non-empty mask yields a non-empty value. -/
theorem lor_ne_zero (b m : Nat) (hm : m ≠ 0) : b ||| m ≠ 0 := by
  intro h
  have h2 := lor_land_same b m
  rw [h, Nat.zero_and] at h2
  exact hm h2.symm

/-- Setting again a single bit that is already set changes nothing. -/
theorem lor_two_pow_of_land_ne_zero (b k : Nat) (h : b &&& 2 ^ k ≠ 0) : b ||| 2 ^ k = b := by
  obtain ⟨i, hi⟩ := Nat.ne_zero_implies_bit_true h
  rw [Nat.testBit_and, Nat.testBit_two_pow, Bool.and_eq_true, decide_eq_true_eq] at hi
  obtain ⟨hb, hki⟩ := hi
  subst hki
  apply Nat.eq_of_testBit_eq
  intro j
  rw [Nat.testBit_or, Nat.testBit_two_pow]
  by_cases hkj : k = j
  · subst hkj
    simp [hb]
  · simp [hkj]

/-- The gate after one event: unchanged, or with one of the two masks set. -/
theorem deliver_gate (N : Int) (e : Event) (g : Globals) :
    ((deliver N e g).wifi_event_group = g.wifi_event_group
      ∧ signals (deliver N e g).trace = signals g.trace)
    ∨ ((deliver N e g).wifi_event_group = g.wifi_event_group ||| WIFI_SUCCESS
      ∧ e = AddressAssigned
      ∧ (deliver N e g).trace = g.trace ++ [Call.xEventGroupSetBits WIFI_SUCCESS])
    ∨ ((deliver N e g).wifi_event_group = g.wifi_event_group ||| WIFI_FAILURE
      ∧ e = Disconnected
      ∧ (deliver N e g).trace = g.trace ++ [Call.xEventGroupSetBits WIFI_FAILURE]) := by
  rcases e with ⟨_ | _ | _⟩ | ⟨_ | _⟩
  · left
    simp [deliver, wifi_event_handler, Globals.call, signals, Call.is_signal]
  · by_cases hlt : g.retry_num < N
    · left
      rw [deliver_disconnected_retry N g hlt]
      simp [signals, Call.is_signal]
    · right; right
      rw [deliver_disconnected_exhausted N g (by omega)]
      exact ⟨rfl, rfl, rfl⟩
  · left
    simp [deliver, wifi_event_handler]
  · right; left
    rw [deliver_address_assigned]
    exact ⟨rfl, rfl, rfl⟩
  · left
    simp [deliver]

/-- A set success bit comes from the state before or from an
`AddressAssigned` among the events. -/
theorem run_success_signaled (N : Int) (es : List Event) (g : Globals)
    (h : success_signaled (run N es g) = true) :
    success_signaled g = true ∨ AddressAssigned ∈ es := by
  induction es generalizing g with
  | nil => exact Or.inl h
  | cons e es ih =>
    rcases ih (deliver N e g) h with h1 | h1
    · rcases deliver_gate N e g with ⟨hb, _⟩ | ⟨_, he, _⟩ | ⟨hb, _, _⟩
      · left
        simpa [success_signaled, hb] using h1
      · right
        simp [he]
      · left
        simpa [success_signaled, hb, lor_failure_land_success] using h1
    · right
      exact List.mem_cons_of_mem _ h1

/-- A set failure bit comes from the state before or from a `Disconnected`
among the events. -/
theorem run_failure_signaled (N : Int) (es : List Event) (g : Globals)
    (h : failure_signaled (run N es g) = true) :
    failure_signaled g = true ∨ Disconnected ∈ es := by
  induction es generalizing g with
  | nil => exact Or.inl h
  | cons e es ih =>
    rcases ih (deliver N e g) h with h1 | h1
    · rcases deliver_gate N e g with ⟨hb, _⟩ | ⟨hb, _, _⟩ | ⟨_, he, _⟩
      · left
        simpa [failure_signaled, hb] using h1
      · left
        simpa [failure_signaled, hb, lor_success_land_failure] using h1
      · right
        simp [he]
    · right
      exact List.mem_cons_of_mem _ h1

/-- A wait that starts on a gate with a waited-for bit set returns at once. -/
theorem xEventGroupWaitBits_immediate (N : Int) (m : Nat) (es : List Event) (g : Globals)
    (h : g.wifi_event_group &&& m ≠ 0) :
    xEventGroupWaitBits N m es g
      = .returned g.wifi_event_group (g.call (.xEventGroupWaitBits g.wifi_event_group)) := by
  cases es with
  | nil => rw [xEventGroupWaitBits, if_pos h]
  | cons e es => rw [xEventGroupWaitBits, if_pos h]

/-- A caller that starts waiting on an empty gate is woken with exactly one of
the two masks. -/
theorem xEventGroupWaitBits_from_empty_gate (N : Int) (es : List Event) (g : Globals)
    (b : Nat) (g' : Globals) (hg : g.wifi_event_group = 0)
    (h : xEventGroupWaitBits N (WIFI_SUCCESS ||| WIFI_FAILURE) es g = .returned b g') :
    b = WIFI_SUCCESS ∨ b = WIFI_FAILURE := by
  induction es generalizing g with
  | nil =>
    rw [xEventGroupWaitBits, hg] at h
    simp at h
  | cons e es ih =>
    rw [xEventGroupWaitBits, hg] at h
    simp only [Nat.zero_and, ne_eq, not_true_eq_false, if_false] at h
    rcases deliver_gate N e g with ⟨hb, _⟩ | ⟨hb, _, _⟩ | ⟨hb, _, _⟩
    · exact ih _ (by rw [hb, hg]) h
    · rw [hg, Nat.zero_or] at hb
      rw [xEventGroupWaitBits_immediate N _ es _ (by rw [hb]; decide)] at h
      injection h with h1 _
      left
      rw [← h1, hb]
    · rw [hg, Nat.zero_or] at hb
      rw [xEventGroupWaitBits_immediate N _ es _ (by rw [hb]; decide)] at h
      injection h with h1 _
      right
      rw [← h1, hb]

/-- Or-ing in a mask keeps every bit that was set. -/
theorem lor_land_old (b m : Nat) : (b ||| m) &&& b = b := by
  apply Nat.eq_of_testBit_eq
  intro i
  simp only [Nat.testBit_and, Nat.testBit_or]
  cases b.testBit i <;> cases m.testBit i <;> rfl

/-- One event clears no gate bit: every bit set before it is set after it. -/
theorem deliver_keeps_bits (N : Int) (e : Event) (g : Globals) :
    (deliver N e g).wifi_event_group &&& g.wifi_event_group = g.wifi_event_group := by
  rcases deliver_gate N e g with ⟨hb, _⟩ | ⟨hb, _, _⟩ | ⟨hb, _, _⟩
  · rw [hb, Nat.and_self]
  · rw [hb, lor_land_old]
  · rw [hb, lor_land_old]

/-- No event sequence clears a gate bit. -/
theorem run_keeps_bits (N : Int) (es : List Event) (g : Globals) :
    (run N es g).wifi_event_group &&& g.wifi_event_group = g.wifi_event_group := by
  induction es generalizing g with
  | nil => rw [run, Nat.and_self]
  | cons e es ih =>
    rw [run]
    have h1 := ih (deliver N e g)
    have h2 := deliver_keeps_bits N e g
    calc (run N es (deliver N e g)).wifi_event_group &&& g.wifi_event_group
        = (run N es (deliver N e g)).wifi_event_group
            &&& ((deliver N e g).wifi_event_group &&& g.wifi_event_group) := by rw [h2]
      _ = ((run N es (deliver N e g)).wifi_event_group &&& (deliver N e g).wifi_event_group)
            &&& g.wifi_event_group := by rw [Nat.and_assoc]
      _ = (deliver N e g).wifi_event_group &&& g.wifi_event_group := by rw [h1]
      _ = g.wifi_event_group := h2

/-- A bit of a mask that is set in a value is set in every value that keeps
the bits of that value. -/
theorem land_mask_ne_zero_of_keeps (a b m : Nat) (hkeep : a &&& b = b) (hb : b &&& m ≠ 0) :
    a &&& m ≠ 0 := by
  intro ha
  apply hb
  calc b &&& m = (a &&& b) &&& m := by rw [hkeep]
    _ = (b &&& a) &&& m := by rw [Nat.and_comm a b]
    _ = b &&& (a &&& m) := by rw [Nat.and_assoc]
    _ = 0 := by rw [ha, Nat.and_zero]

/-- A signal bit, once set, stays set over every event sequence. -/
theorem run_keeps_signaled (N : Int) (es : List Event) (g : Globals) :
    (success_signaled g = true → success_signaled (run N es g) = true)
    ∧ (failure_signaled g = true → failure_signaled (run N es g) = true) := by
  have hkeep := run_keeps_bits N es g
  constructor
  · intro h
    have hb : g.wifi_event_group &&& WIFI_SUCCESS ≠ 0 := by
      simpa [success_signaled] using h
    have := land_mask_ne_zero_of_keeps _ _ _ hkeep hb
    simpa [success_signaled] using this
  · intro h
    have hb : g.wifi_event_group &&& WIFI_FAILURE ≠ 0 := by
      simpa [failure_signaled] using h
    have := land_mask_ne_zero_of_keeps _ _ _ hkeep hb
    simpa [failure_signaled] using this

/-- C2 as stated fails: with `maxRetries = 0` the events
`[Started, Disconnected, AddressAssigned]` leave both gate bits set. -/
theorem gate_bits_both_set_counterexample :
    (run 0 [InterfaceStarted, Disconnected, AddressAssigned] Globals.initial).wifi_event_group = 3
    ∧ success_signaled
        (run 0 [InterfaceStarted, Disconnected, AddressAssigned] Globals.initial) = true
    ∧ failure_signaled
        (run 0 [InterfaceStarted, Disconnected, AddressAssigned] Globals.initial) = true := by
  decide

/-- C2, amended: the two gate bits are mutually exclusive up to and including
the first signal. If the gate is still empty after the events `pre`, then
after one more event it does not hold both bits; and a caller that starts
waiting on an empty gate is woken with exactly `WIFI_SUCCESS` or exactly
`WIFI_FAILURE`. The handlers never clear a bit: from every state and over
every event sequence each bit set before is set after. So events delivered
after the first signal can set the other bit as well: from every state with
the failure bit set an `AddressAssigned` leaves both bits set, and from every
state with the success bit set a `Disconnected` with the budget used up
leaves both bits set. Both bits are set only after a sequence that contains
both an `AddressAssigned` and a `Disconnected`. -/
theorem gate_bits_exclusive_until_first_signal (N : Int) (pre : List Event) (e : Event) :
    ((run N pre Globals.initial).wifi_event_group = 0 →
      ¬ (success_signaled (run N (pre ++ [e]) Globals.initial) = true
          ∧ failure_signaled (run N (pre ++ [e]) Globals.initial) = true))
    ∧ (∀ (pending : List Event) (g g' : Globals) (b : Nat), g.wifi_event_group = 0 →
        xEventGroupWaitBits N (WIFI_SUCCESS ||| WIFI_FAILURE) pending g = .returned b g' →
        b = WIFI_SUCCESS ∨ b = WIFI_FAILURE)
    ∧ (success_signaled (run N pre Globals.initial) = true
          ∧ failure_signaled (run N pre Globals.initial) = true →
        AddressAssigned ∈ pre ∧ Disconnected ∈ pre)
    ∧ (∀ (es : List Event) (g : Globals),
        (run N es g).wifi_event_group &&& g.wifi_event_group = g.wifi_event_group
        ∧ (success_signaled g = true → success_signaled (run N es g) = true)
        ∧ (failure_signaled g = true → failure_signaled (run N es g) = true))
    ∧ (∀ g : Globals, failure_signaled g = true →
        success_signaled (deliver N AddressAssigned g) = true
        ∧ failure_signaled (deliver N AddressAssigned g) = true)
    ∧ (∀ g : Globals, success_signaled g = true → N ≤ g.retry_num →
        success_signaled (deliver N Disconnected g) = true
        ∧ failure_signaled (deliver N Disconnected g) = true) := by
  refine ⟨?_, ?_, ?_, ?_, ?_, ?_⟩
  rotate_left 3
  · intro es g
    exact ⟨run_keeps_bits N es g, run_keeps_signaled N es g⟩
  · intro g hf
    refine ⟨?_, ?_⟩
    · rw [deliver_address_assigned]
      exact success_signaled_set g 0 _
    · have := (run_keeps_signaled N [AddressAssigned] g).2 hf
      simpa [run] using this
  · intro g hs hle
    refine ⟨?_, ?_⟩
    · have := (run_keeps_signaled N [Disconnected] g).1 hs
      simpa [run] using this
    · rw [deliver_disconnected_exhausted N g hle]
      exact failure_signaled_set g _ _
  · intro h0 hboth
    rw [run_snoc] at hboth
    rcases deliver_gate N e (run N pre Globals.initial) with ⟨hb, _⟩ | ⟨hb, _, _⟩ | ⟨hb, _, _⟩
    · rw [h0] at hb
      simp [success_signaled, hb] at hboth
    · rw [h0, Nat.zero_or] at hb
      have : failure_signaled (deliver N e (run N pre Globals.initial)) = false := by
        rw [failure_signaled, hb]
        decide
      rw [this] at hboth
      exact Bool.noConfusion hboth.2
    · rw [h0, Nat.zero_or] at hb
      have : success_signaled (deliver N e (run N pre Globals.initial)) = false := by
        rw [success_signaled, hb]
        decide
      rw [this] at hboth
      exact Bool.noConfusion hboth.1
  · intro pending g g' b hg h
    exact xEventGroupWaitBits_from_empty_gate N pending g b g' hg h
  · rintro ⟨hs, hf⟩
    constructor
    · rcases run_success_signaled N pre _ hs with h | h
      · exact absurd h (by decide)
      · exact h
    · rcases run_failure_signaled N pre _ hf with h | h
      · exact absurd h (by decide)
      · exact h

/-- C2, amended, at a concrete run: with budget 1, after
`[Started, Disconnected]` the gate is empty, and after the next
`Disconnected` it does not hold both bits; the failure bit set by that run is
still set after a further `InterfaceStarted`, and a further `AddressAssigned`
leaves both bits set. -/
theorem gate_bits_exclusive_until_first_signal_witness :
    ¬ (success_signaled
          (run 1 ([InterfaceStarted, Disconnected] ++ [Disconnected]) Globals.initial) = true
        ∧ failure_signaled
          (run 1 ([InterfaceStarted, Disconnected] ++ [Disconnected]) Globals.initial) = true)
    ∧ failure_signaled
        (run 1 [InterfaceStarted]
          (run 1 [InterfaceStarted, Disconnected, Disconnected] Globals.initial)) = true
    ∧ (success_signaled
          (deliver 1 AddressAssigned
            (run 1 [InterfaceStarted, Disconnected, Disconnected] Globals.initial)) = true
        ∧ failure_signaled
          (deliver 1 AddressAssigned
            (run 1 [InterfaceStarted, Disconnected, Disconnected] Globals.initial)) = true) :=
  ⟨(gate_bits_exclusive_until_first_signal 1 [InterfaceStarted, Disconnected] Disconnected).1
      (by decide),
   ((gate_bits_exclusive_until_first_signal 1 [] Disconnected).2.2.2.1 [InterfaceStarted]
      (run 1 [InterfaceStarted, Disconnected, Disconnected] Globals.initial)).2.2 (by decide),
   (gate_bits_exclusive_until_first_signal 1 [] Disconnected).2.2.2.2.1
      (run 1 [InterfaceStarted, Disconnected, Disconnected] Globals.initial) (by decide)⟩

/-- Signals of one kind are among the signals. -/
theorem signals_of_le_signals (m : Nat) (t : List Call) : signals_of m t ≤ signals t := by
  rw [signals_of, signals, List.count_eq_countP]
  apply List.countP_mono_left
  intro c _ hc
  rw [beq_iff_eq] at hc
  subst hc
  rfl

/-- One event makes at most one gate signal. -/
theorem deliver_signals_le (N : Int) (e : Event) (g : Globals) :
    signals (deliver N e g).trace ≤ signals g.trace + 1 := by
  rcases deliver_gate N e g with ⟨_, hs⟩ | ⟨_, _, ht⟩ | ⟨_, _, ht⟩
  · omega
  · rw [ht]
    simp [signals, Call.is_signal]
  · rw [ht]
    simp [signals, Call.is_signal]

/-- While the gate is empty no signal has been made, on any run that starts
from such a state. -/
theorem run_gate_empty_no_signal (N : Int) (es : List Event) (g : Globals)
    (hg : g.wifi_event_group = 0 → signals g.trace = 0)
    (h : (run N es g).wifi_event_group = 0) : signals (run N es g).trace = 0 := by
  induction es generalizing g with
  | nil => exact hg h
  | cons e es ih =>
    apply ih (deliver N e g) _ h
    intro h0
    rcases deliver_gate N e g with ⟨hb, hs⟩ | ⟨hb, _, _⟩ | ⟨hb, _, _⟩
    · rw [hs]
      exact hg (by rw [← hb]; exact h0)
    · rw [hb] at h0
      exact absurd h0 (lor_ne_zero _ _ (by decide))
    · rw [hb] at h0
      exact absurd h0 (lor_ne_zero _ _ (by decide))

/-- C9 as stated fails: with `maxRetries = 0` the events
`[Started, Disconnected, Disconnected]` make the handlers call
`xEventGroupSetBits(WIFI_FAILURE)` twice. -/
theorem gate_signalled_twice_counterexample :
    (run 0 [InterfaceStarted, Disconnected, Disconnected] Globals.initial).trace
      = [Call.esp_wifi_connect, Call.xEventGroupSetBits WIFI_FAILURE,
         Call.xEventGroupSetBits WIFI_FAILURE]
    ∧ signals (run 0 [InterfaceStarted, Disconnected, Disconnected] Globals.initial).trace = 2
    ∧ signals_of WIFI_FAILURE
        (run 0 [InterfaceStarted, Disconnected, Disconnected] Globals.initial).trace = 2 := by
  decide

/-- C9, amended: the side effects of the event handlers are limited to connect
requests and gate signals (every call on the trace is `esp_wifi_connect`,
`xEventGroupSetBits(WIFI_SUCCESS)` or `xEventGroupSetBits(WIFI_FAILURE)`), and
one event makes at most one gate signal. Up to and including the first
signal, that is when the gate is still empty after the events `pre` and one
more event is delivered, at most one gate signal has been made in total, so
each kind at most once. Events delivered later can signal again; signalling a
kind whose bit is already set leaves the gate value unchanged. -/
theorem handlers_signal_once_until_first_signal (N : Int) (pre : List Event) (e : Event) :
    (∀ c ∈ (run N pre Globals.initial).trace, handler_call c)
    ∧ signals (run N (pre ++ [e]) Globals.initial).trace
        ≤ signals (run N pre Globals.initial).trace + 1
    ∧ ((run N pre Globals.initial).wifi_event_group = 0 →
        signals (run N (pre ++ [e]) Globals.initial).trace ≤ 1
        ∧ signals_of WIFI_SUCCESS (run N (pre ++ [e]) Globals.initial).trace ≤ 1
        ∧ signals_of WIFI_FAILURE (run N (pre ++ [e]) Globals.initial).trace ≤ 1)
    ∧ (∀ g : Globals, success_signaled g = true →
        (deliver N AddressAssigned g).wifi_event_group = g.wifi_event_group)
    ∧ (∀ g : Globals, failure_signaled g = true → N ≤ g.retry_num →
        (deliver N Disconnected g).wifi_event_group = g.wifi_event_group) := by
  refine ⟨?_, ?_, ?_, ?_, ?_⟩
  · obtain ⟨t, ht, hall⟩ := run_trace N pre Globals.initial
    intro c hc
    rw [ht] at hc
    simp only [Globals.initial, List.nil_append] at hc
    exact hall c hc
  · rw [run_snoc]
    exact deliver_signals_le N e _
  · intro h0
    have hnone : signals (run N pre Globals.initial).trace = 0 :=
      run_gate_empty_no_signal N pre Globals.initial (fun _ => rfl) h0
    have hle : signals (run N (pre ++ [e]) Globals.initial).trace ≤ 1 := by
      rw [run_snoc]
      have := deliver_signals_le N e (run N pre Globals.initial)
      omega
    exact ⟨hle, le_trans (signals_of_le_signals _ _) hle,
      le_trans (signals_of_le_signals _ _) hle⟩
  · intro g hs
    rw [deliver_address_assigned]
    have hne : g.wifi_event_group &&& 2 ^ 0 ≠ 0 := by
      simpa [success_signaled, WIFI_SUCCESS_eq] using hs
    exact lor_two_pow_of_land_ne_zero g.wifi_event_group 0 hne
  · intro g hf hle
    rw [deliver_disconnected_exhausted N g hle]
    have hne : g.wifi_event_group &&& 2 ^ 1 ≠ 0 := by
      simpa [failure_signaled, WIFI_FAILURE_eq] using hf
    exact lor_two_pow_of_land_ne_zero g.wifi_event_group 1 hne

/-- C9, amended, at a concrete run: budget 1, gate empty after
`[Started, Disconnected]`; the next `Disconnected` brings the number of gate
signals to at most one. -/
theorem handlers_signal_once_until_first_signal_witness :
    signals (run 1 ([InterfaceStarted, Disconnected] ++ [Disconnected]) Globals.initial).trace ≤ 1
    ∧ signals_of WIFI_SUCCESS
        (run 1 ([InterfaceStarted, Disconnected] ++ [Disconnected]) Globals.initial).trace ≤ 1
    ∧ signals_of WIFI_FAILURE
        (run 1 ([InterfaceStarted, Disconnected] ++ [Disconnected]) Globals.initial).trace ≤ 1 :=
  (handlers_signal_once_until_first_signal 1 [InterfaceStarted, Disconnected] Disconnected).2.2.1
    (by decide)

/-! ## Storage recovery in `init_wifi` (claim C7) -/

/-- Delivering events makes no storage call. -/
theorem run_no_storage (N : Int) (es : List Event) (g : Globals) :
    ∃ t, (run N es g).trace = g.trace ++ t ∧ ∀ c ∈ t, c.is_storage = false := by
  obtain ⟨t, ht, hall⟩ := run_trace N es g
  refine ⟨t, ht, ?_⟩
  intro c hc
  rcases hall c hc with h | h | h <;> (subst h; rfl)

/-- The wait makes no storage call, however it ends. -/
theorem xEventGroupWaitBits_no_storage (N : Int) (m : Nat) (es : List Event) (g : Globals) :
    ∃ t, (xEventGroupWaitBits N m es g).globals.trace = g.trace ++ t
      ∧ ∀ c ∈ t, c.is_storage = false := by
  induction es generalizing g with
  | nil =>
    rw [xEventGroupWaitBits]
    split
    · exact ⟨[Call.xEventGroupWaitBits g.wifi_event_group], rfl, by simp [Call.is_storage]⟩
    · exact ⟨[], by simp [Outcome.globals], by simp⟩
  | cons e es ih =>
    rw [xEventGroupWaitBits]
    split
    · exact ⟨[Call.xEventGroupWaitBits g.wifi_event_group], rfl, by simp [Call.is_storage]⟩
    · obtain ⟨t, ht, hall⟩ := ih (deliver N e g)
      obtain ⟨d, hd, hdall⟩ := run_no_storage N [e] g
      rw [run, run] at hd
      refine ⟨d ++ t, by rw [ht, hd, List.append_assoc], ?_⟩
      intro c hc
      rcases List.mem_append.mp hc with h | h
      · exact hdall c h
      · exact hall c h

/-- However `connect_wifi` ends, the calls it adds to the trace start with
`esp_netif_init` and contain no storage call. -/
theorem connect_wifi_no_storage (env : Env) (g : Globals) :
    ∃ t, (connect_wifi env g).globals.trace = g.trace ++ Call.esp_netif_init :: t
      ∧ ∀ c ∈ t, c.is_storage = false := by
  unfold connect_wifi ESP_ERROR_CHECK
  by_cases h1 : env.esp_netif_init = ESP_OK
  case neg =>
    exact ⟨[], by simp [h1, Outcome.globals, Globals.call], by simp⟩
  by_cases h2 : env.esp_event_loop_create_default = ESP_OK
  case neg =>
    exact ⟨[.esp_event_loop_create_default], by simp [h1, h2, Outcome.globals, Globals.call],
      by simp [Call.is_storage]⟩
  by_cases h3 : env.esp_wifi_init = ESP_OK
  case neg =>
    exact ⟨[.esp_event_loop_create_default, .esp_netif_create_default_wifi_sta, .esp_wifi_init],
      by simp [h1, h2, h3, Outcome.globals, Globals.call], by simp [Call.is_storage]⟩
  by_cases h4 : env.register_wifi_event_handler = ESP_OK
  case neg =>
    exact ⟨[.esp_event_loop_create_default, .esp_netif_create_default_wifi_sta, .esp_wifi_init,
        .xEventGroupCreate, .register_wifi_event_handler],
      by simp [h1, h2, h3, h4, Outcome.globals, Globals.call], by simp [Call.is_storage]⟩
  by_cases h5 : env.register_ip_event_handler = ESP_OK
  case neg =>
    exact ⟨[.esp_event_loop_create_default, .esp_netif_create_default_wifi_sta, .esp_wifi_init,
        .xEventGroupCreate, .register_wifi_event_handler, .register_ip_event_handler],
      by simp [h1, h2, h3, h4, h5, Outcome.globals, Globals.call], by simp [Call.is_storage]⟩
  by_cases h6 : env.esp_wifi_set_mode = ESP_OK
  case neg =>
    exact ⟨[.esp_event_loop_create_default, .esp_netif_create_default_wifi_sta, .esp_wifi_init,
        .xEventGroupCreate, .register_wifi_event_handler, .register_ip_event_handler,
        .esp_wifi_set_mode],
      by simp [h1, h2, h3, h4, h5, h6, Outcome.globals, Globals.call],
      by simp [Call.is_storage]⟩
  by_cases h7 : env.esp_wifi_set_config = ESP_OK
  case neg =>
    exact ⟨[.esp_event_loop_create_default, .esp_netif_create_default_wifi_sta, .esp_wifi_init,
        .xEventGroupCreate, .register_wifi_event_handler, .register_ip_event_handler,
        .esp_wifi_set_mode, .esp_wifi_set_config],
      by simp [h1, h2, h3, h4, h5, h6, h7, Outcome.globals, Globals.call],
      by simp [Call.is_storage]⟩
  by_cases h8 : env.esp_wifi_start = ESP_OK
  case neg =>
    exact ⟨[.esp_event_loop_create_default, .esp_netif_create_default_wifi_sta, .esp_wifi_init,
        .xEventGroupCreate, .register_wifi_event_handler, .register_ip_event_handler,
        .esp_wifi_set_mode, .esp_wifi_set_config, .esp_wifi_start],
      by simp [h1, h2, h3, h4, h5, h6, h7, h8, Outcome.globals, Globals.call],
      by simp [Call.is_storage]⟩
  simp only [h1, h2, h3, h4, h5, h6, h7, h8, if_true, Globals.call, List.append_assoc,
    List.singleton_append, List.cons_append, List.nil_append]
  obtain ⟨tr, htr, hr⟩ := run_no_storage env.MAX_FAILURES
    (env.events.take env.handled_before_wait) (connect_wifi_started g)
  obtain ⟨tw, htw, hw⟩ := xEventGroupWaitBits_no_storage env.MAX_FAILURES
    (WIFI_SUCCESS ||| WIFI_FAILURE) (env.events.drop env.handled_before_wait)
    (run env.MAX_FAILURES (env.events.take env.handled_before_wait) (connect_wifi_started g))
  rw [htr] at htw
  simp only [connect_wifi_started, connect_wifi_setup_calls, List.append_assoc,
    List.cons_append, List.nil_append] at htw
  have hall : ∀ (rest : List Call), (∀ c ∈ rest, c.is_storage = false) →
      ∀ c ∈ [Call.esp_event_loop_create_default, .esp_netif_create_default_wifi_sta,
        .esp_wifi_init, .xEventGroupCreate, .register_wifi_event_handler,
        .register_ip_event_handler, .esp_wifi_set_mode, .esp_wifi_set_config, .esp_wifi_start]
        ++ (tr ++ (tw ++ rest)), c.is_storage = false := by
    intro rest hrest c hc
    rcases List.mem_append.mp hc with h | h
    · simp only [List.mem_cons, List.mem_singleton, List.mem_nil_iff, or_false] at h
      rcases h with h | h | h | h | h | h | h | h | h <;> (subst h; rfl)
    · rcases List.mem_append.mp h with h | h
      · exact hr c h
      · rcases List.mem_append.mp h with h | h
        · exact hw c h
        · exact hrest c h
  split
  · rename_i g1 heq
    rw [heq] at htw
    simp only [Outcome.globals] at htw ⊢
    exact ⟨_, by rw [htw]; simp, hall [] (by simp)⟩
  · rename_i g1 heq
    rw [heq] at htw
    simp only [Outcome.globals] at htw ⊢
    exact ⟨_, by rw [htw]; simp, hall [] (by simp)⟩
  · rename_i bits g1 heq
    rw [heq] at htw
    simp only [Outcome.globals] at htw
    by_cases h9 : env.unregister_ip_event_handler = ESP_OK
    case neg =>
      simp only [h9, if_false, Outcome.globals]
      exact ⟨_, by rw [htw]; simp,
        hall [Call.unregister_ip_event_handler] (by simp [Call.is_storage])⟩
    by_cases h10 : env.unregister_wifi_event_handler = ESP_OK
    case neg =>
      simp only [h9, h10, if_true, if_false, Outcome.globals]
      exact ⟨_, by rw [htw]; simp,
        hall [Call.unregister_ip_event_handler, Call.unregister_wifi_event_handler]
          (by simp [Call.is_storage])⟩
    simp only [h9, h10, if_true, Outcome.globals]
    exact ⟨_, by rw [htw]; simp,
      hall [Call.unregister_ip_event_handler, Call.unregister_wifi_event_handler,
        Call.vEventGroupDelete] (by simp [Call.is_storage])⟩

/-- The recoverable codes are not `ESP_OK`. -/
theorem recoverable_storage_fault_ne_ok (ret : esp_err_t) (h : recoverable_storage_fault ret) :
    ret ≠ ESP_OK := by
  rcases h with h | h <;> (rw [h]; decide)

/-- The connection phase of `init_wifi` (lines 115-122), however it ends, adds
`display_text`, then `esp_netif_init`, then calls none of which is a storage
call. -/
theorem init_wifi_connection_phase (env : Env) (g : Globals) :
    ∃ t,
      (match connect_wifi env (g.call (.display_text .connecting_to_wifi)) with
        | .aborted g => (Outcome.aborted g : Outcome Status)
        | .blocked g => .blocked g
        | .returned status g =>
          if status ≠ Status.SUCCESS then .returned Status.FAILURE g
          else .returned Status.SUCCESS (g.call (.display_text .wifi_connected))).globals.trace
        = g.trace ++ [Call.display_text .connecting_to_wifi, Call.esp_netif_init] ++ t
      ∧ ∀ c ∈ t, c.is_storage = false := by
  obtain ⟨t, ht, hall⟩ := connect_wifi_no_storage env (g.call (.display_text .connecting_to_wifi))
  cases hcw : connect_wifi env (g.call (.display_text .connecting_to_wifi)) with
  | aborted g1 =>
    rw [hcw] at ht
    exact ⟨t, by simpa [Outcome.globals, Globals.call] using ht, hall⟩
  | blocked g1 =>
    rw [hcw] at ht
    exact ⟨t, by simpa [Outcome.globals, Globals.call] using ht, hall⟩
  | returned status g1 =>
    rw [hcw] at ht
    simp only [Outcome.globals, Globals.call] at ht
    cases status with
    | SUCCESS =>
      refine ⟨t ++ [Call.display_text .wifi_connected], ?_, ?_⟩
      · simp [Outcome.globals, Globals.call, ht]
      · intro c hc
        rcases List.mem_append.mp hc with h | h
        · exact hall c h
        · simp only [List.mem_singleton] at h
          subst h
          rfl
    | FAILURE =>
      exact ⟨t, by simp [Outcome.globals, ht], hall⟩

/-- The calls of `init_wifi` in each of its five cases. -/
theorem init_wifi_cases (env : Env) (g : Globals) :
    (¬ recoverable_storage_fault env.nvs_flash_init_first → env.nvs_flash_init_first ≠ ESP_OK →
      init_wifi env g
        = .aborted { g with trace := g.trace
            ++ [Call.nvs_flash_init, Call.display_text .running_nvs_flash_init] })
    ∧ (recoverable_storage_fault env.nvs_flash_init_first → env.nvs_flash_erase ≠ ESP_OK →
      init_wifi env g
        = .aborted { g with trace := g.trace
            ++ [Call.nvs_flash_init, Call.display_text .running_nvs_flash_init,
                Call.nvs_flash_erase] })
    ∧ (recoverable_storage_fault env.nvs_flash_init_first → env.nvs_flash_erase = ESP_OK →
        env.nvs_flash_init_second ≠ ESP_OK →
      init_wifi env g
        = .aborted { g with trace := g.trace
            ++ [Call.nvs_flash_init, Call.display_text .running_nvs_flash_init,
                Call.nvs_flash_erase, Call.nvs_flash_init] })
    ∧ (¬ recoverable_storage_fault env.nvs_flash_init_first → env.nvs_flash_init_first = ESP_OK →
      ∃ t, (init_wifi env g).globals.trace
          = g.trace ++ [Call.nvs_flash_init, Call.display_text .running_nvs_flash_init,
              Call.display_text .connecting_to_wifi, Call.esp_netif_init] ++ t
        ∧ ∀ c ∈ t, c.is_storage = false)
    ∧ (recoverable_storage_fault env.nvs_flash_init_first → env.nvs_flash_erase = ESP_OK →
        env.nvs_flash_init_second = ESP_OK →
      ∃ t, (init_wifi env g).globals.trace
          = g.trace ++ [Call.nvs_flash_init, Call.display_text .running_nvs_flash_init,
              Call.nvs_flash_erase, Call.nvs_flash_init,
              Call.display_text .connecting_to_wifi, Call.esp_netif_init] ++ t
        ∧ ∀ c ∈ t, c.is_storage = false) := by
  refine ⟨?_, ?_, ?_, ?_, ?_⟩
  · intro hrec hne
    unfold recoverable_storage_fault at hrec
    simp [init_wifi, hrec, hne, Globals.call]
  · intro hrec hne
    unfold recoverable_storage_fault at hrec
    simp [init_wifi, ESP_ERROR_CHECK, hrec, hne, Globals.call]
  · intro hrec hok hne
    unfold recoverable_storage_fault at hrec
    simp [init_wifi, ESP_ERROR_CHECK, hrec, hok, hne, Globals.call]
  · intro hrec hok
    unfold recoverable_storage_fault at hrec
    obtain ⟨t, ht, hall⟩ := init_wifi_connection_phase env
      ((g.call .nvs_flash_init).call (.display_text .running_nvs_flash_init))
    refine ⟨t, ?_, hall⟩
    simp only [init_wifi]
    rw [if_neg hrec]
    simp only [hok, if_true]
    rw [ht]
    simp [Globals.call]
  · intro hrec hok hok2
    unfold recoverable_storage_fault at hrec
    obtain ⟨t, ht, hall⟩ := init_wifi_connection_phase env
      ((((g.call .nvs_flash_init).call (.display_text .running_nvs_flash_init)).call
        .nvs_flash_erase).call .nvs_flash_init)
    refine ⟨t, ?_, hall⟩
    simp only [init_wifi]
    rw [if_pos hrec]
    simp only [ESP_ERROR_CHECK, hok, hok2, if_true]
    rw [ht]
    simp [Globals.call]

/-- A list without storage calls counts no erase and no init. -/
theorem storage_counts_zero (t : List Call) (h : ∀ c ∈ t, c.is_storage = false) :
    storage_erases t = 0 ∧ storage_inits t = 0 := by
  constructor
  · rw [storage_erases, List.count_eq_zero]
    intro hmem
    exact Bool.noConfusion (h _ hmem)
  · rw [storage_inits, List.count_eq_zero]
    intro hmem
    exact Bool.noConfusion (h _ hmem)

/-- C7 as stated fails: when the first `nvs_flash_init` reports "no free pages"
and `nvs_flash_erase` fails, `init_wifi` aborts in the `ESP_ERROR_CHECK` of the
erase, so the storage is not re-initialised (`nvs_flash_init` is called once
in all) although the first init reported a recoverable fault: "erased and
re-initialised exactly once" is not equivalent to "the first init reported a
recoverable fault". -/
theorem init_wifi_erase_failure_counterexample :
    recoverable_storage_fault
      ({ Env.ok 1 [] 0 with nvs_flash_init_first := ESP_ERR_NVS_NO_FREE_PAGES,
                            nvs_flash_erase := -1 } : Env).nvs_flash_init_first
    ∧ init_wifi { Env.ok 1 [] 0 with nvs_flash_init_first := ESP_ERR_NVS_NO_FREE_PAGES,
                                     nvs_flash_erase := -1 } Globals.initial
        = .aborted { retry_num := 0, wifi_event_group := 0,
                     trace := [Call.nvs_flash_init,
                               Call.display_text .running_nvs_flash_init,
                               Call.nvs_flash_erase] }
    ∧ storage_inits
        (init_wifi { Env.ok 1 [] 0 with nvs_flash_init_first := ESP_ERR_NVS_NO_FREE_PAGES,
                                        nvs_flash_erase := -1 } Globals.initial).globals.trace
        = 1
    ∧ ¬ ((storage_erases
            (init_wifi { Env.ok 1 [] 0 with nvs_flash_init_first := ESP_ERR_NVS_NO_FREE_PAGES,
                                            nvs_flash_erase := -1 } Globals.initial).globals.trace
            = 1
          ∧ storage_inits
            (init_wifi { Env.ok 1 [] 0 with nvs_flash_init_first := ESP_ERR_NVS_NO_FREE_PAGES,
                                            nvs_flash_erase := -1 } Globals.initial).globals.trace
            = 2)
        ↔ recoverable_storage_fault
            ({ Env.ok 1 [] 0 with nvs_flash_init_first := ESP_ERR_NVS_NO_FREE_PAGES,
                                  nvs_flash_erase := -1 } : Env).nvs_flash_init_first) :=
  ⟨Or.inl rfl, by decide, by decide,
   fun h => absurd (h.mpr (Or.inl rfl)).2 (by decide)⟩

/-- C7, amended: in `init_wifi` the storage erase is attempted exactly once if
and only if the first `nvs_flash_init` reports "no free pages" or "new version
found" (and never more than once); the re-initialisation, a second
`nvs_flash_init`, is performed if and only if in addition that erase returns
`ESP_OK` (and there is never a third); `init_wifi` goes on to the connection
phase if and only if the last init result is `ESP_OK`; it aborts when the
first init reports any other error, when the erase fails, and when the
re-initialisation fails, also with a recoverable code. -/
theorem init_wifi_storage_recovery (env : Env) (g : Globals) :
    (∃ calls, (init_wifi env g).globals.trace = g.trace ++ calls
      ∧ (storage_erases calls = 1 ↔ recoverable_storage_fault env.nvs_flash_init_first)
      ∧ storage_erases calls ≤ 1
      ∧ (storage_inits calls = 2 ↔
          recoverable_storage_fault env.nvs_flash_init_first ∧ env.nvs_flash_erase = ESP_OK)
      ∧ 1 ≤ storage_inits calls ∧ storage_inits calls ≤ 2
      ∧ (enters_connection_phase calls ↔ last_init_result env = ESP_OK))
    ∧ (¬ recoverable_storage_fault env.nvs_flash_init_first →
        env.nvs_flash_init_first ≠ ESP_OK →
        init_wifi env g
          = .aborted { g with trace := g.trace
              ++ [Call.nvs_flash_init, Call.display_text .running_nvs_flash_init] })
    ∧ (recoverable_storage_fault env.nvs_flash_init_first → env.nvs_flash_erase ≠ ESP_OK →
        init_wifi env g
          = .aborted { g with trace := g.trace
              ++ [Call.nvs_flash_init, Call.display_text .running_nvs_flash_init,
                  Call.nvs_flash_erase] })
    ∧ (recoverable_storage_fault env.nvs_flash_init_first → env.nvs_flash_erase = ESP_OK →
        env.nvs_flash_init_second ≠ ESP_OK →
        init_wifi env g
          = .aborted { g with trace := g.trace
              ++ [Call.nvs_flash_init, Call.display_text .running_nvs_flash_init,
                  Call.nvs_flash_erase, Call.nvs_flash_init] }) := by
  obtain ⟨hA, hC, hD, hB, hE⟩ := init_wifi_cases env g
  refine ⟨?_, hA, hC, hD⟩
  by_cases hrec : recoverable_storage_fault env.nvs_flash_init_first
  · have hrec' := hrec
    unfold recoverable_storage_fault at hrec'
    have hne := recoverable_storage_fault_ne_ok _ hrec
    by_cases hok : env.nvs_flash_erase = ESP_OK
    · by_cases hok2 : env.nvs_flash_init_second = ESP_OK
      · obtain ⟨t, ht, hall⟩ := hE hrec hok hok2
        obtain ⟨he, hi⟩ := storage_counts_zero t hall
        rw [storage_erases] at he
        rw [storage_inits] at hi
        rw [List.append_assoc] at ht
        refine ⟨_, ht, ?_⟩
        simp [storage_erases, storage_inits, enters_connection_phase, last_init_result,
          List.count_append, List.count_cons, he, hi, hrec, hrec', hok, hok2]
      · refine ⟨_, by rw [hD hrec hok hok2, Outcome.globals], ?_⟩
        simp [storage_erases, storage_inits, enters_connection_phase, last_init_result,
          List.count_cons, hrec, hrec', hok, hok2]
    · refine ⟨_, by rw [hC hrec hok, Outcome.globals], ?_⟩
      simp [storage_erases, storage_inits, enters_connection_phase, last_init_result,
        List.count_cons, hrec, hrec', hok, hne]
  · have hrec' := hrec
    unfold recoverable_storage_fault at hrec'
    by_cases hok : env.nvs_flash_init_first = ESP_OK
    · obtain ⟨t, ht, hall⟩ := hB hrec hok
      obtain ⟨he, hi⟩ := storage_counts_zero t hall
      rw [storage_erases] at he
      rw [storage_inits] at hi
      rw [List.append_assoc] at ht
      have hl : last_init_result env = ESP_OK := by
        rw [last_init_result, if_neg (fun h => hrec' h.1)]
        exact hok
      refine ⟨_, ht, ?_⟩
      simp [storage_erases, storage_inits, enters_connection_phase, hl,
        List.count_append, List.count_cons, he, hi, hrec]
    · have hl : last_init_result env ≠ ESP_OK := by
        rw [last_init_result, if_neg (fun h => hrec' h.1)]
        exact hok
      refine ⟨_, by rw [hA hrec hok, Outcome.globals], ?_⟩
      simp [storage_erases, storage_inits, enters_connection_phase, hl,
        List.count_cons, hrec]

/-- C7, amended, at concrete results: with the first init reporting "new
version found" and a failing erase `init_wifi` aborts right after the erase;
with a successful erase and a re-initialisation that again reports "no free
pages" it aborts after the second init, without a second erase. -/
theorem init_wifi_storage_recovery_witness :
    init_wifi { Env.ok 1 [] 0 with nvs_flash_init_first := ESP_ERR_NVS_NEW_VERSION_FOUND,
                                   nvs_flash_erase := -1 } Globals.initial
      = .aborted { Globals.initial with trace := Globals.initial.trace
          ++ [Call.nvs_flash_init, Call.display_text .running_nvs_flash_init,
              Call.nvs_flash_erase] }
    ∧ init_wifi { Env.ok 1 [] 0 with nvs_flash_init_first := ESP_ERR_NVS_NEW_VERSION_FOUND,
                                     nvs_flash_init_second := ESP_ERR_NVS_NO_FREE_PAGES }
          Globals.initial
      = .aborted { Globals.initial with trace := Globals.initial.trace
          ++ [Call.nvs_flash_init, Call.display_text .running_nvs_flash_init,
              Call.nvs_flash_erase, Call.nvs_flash_init] } :=
  ⟨(init_wifi_storage_recovery
      { Env.ok 1 [] 0 with nvs_flash_init_first := ESP_ERR_NVS_NEW_VERSION_FOUND,
                           nvs_flash_erase := -1 } Globals.initial).2.2.1
      (Or.inr rfl) (by decide),
   (init_wifi_storage_recovery
      { Env.ok 1 [] 0 with nvs_flash_init_first := ESP_ERR_NVS_NEW_VERSION_FOUND,
                           nvs_flash_init_second := ESP_ERR_NVS_NO_FREE_PAGES }
      Globals.initial).2.2.2
      (Or.inr rfl) rfl (by decide)⟩

end wifi
